import Mathlib

/-!
Shallow embedding of the scx_cake BPF scheduler core
(`src/bpf/cake.bpf.c` together with `src/bpf/intf.h`).

Machine integers are modelled as `Nat` with explicit truncation
(`% 2^32`, `% 2^16`, `% 2^64`) wherever the C code casts or wraps, and as
`Int` where the C code computes with signed values (the EMA delta and the
sparse-score clamp).  The packed per-task word `packed_info` is kept as a
single `Nat` manipulated with the same shift/mask expressions as the C
macros; `u32_not m` renders the 32-bit complement `~m`.

Scheduler callbacks are modelled as pure functions from their explicit
inputs (task context, per-CPU statistics, the current clock value, wake
flags, and an environment record holding the global masks and topology
tables that the callback loads) to their outputs.  Kernel primitives are
modelled by their contracts: `scx_bpf_now` is the `now` argument,
`scx_bpf_dsq_insert` is the returned DSQ id, `scx_bpf_dsq_move_to_local`
is a `pull : Nat → Bool` oracle (each DSQ is polled at most once per
dispatch call), and per-CPU storage lookups always succeed.
-/

/-! ### u32 bit-manipulation toolkit

Value-level bridges from the C shift/mask idioms to divisions and moduli,
so that `omega` can reason about packed-word updates. -/

/-- Bitwise complement on a 32-bit value: `~m` in C, for `m < 2^32`. -/
def u32_not (m : Nat) : Nat := 0xFFFFFFFF ^^^ m

/-- Bitwise complement on a 64-bit value: `~m` in C, for `m < 2^64`. -/
def u64_not (m : Nat) : Nat := 0xFFFFFFFFFFFFFFFF ^^^ m

/-! ### Data model (`intf.h`) -/

/-- Per-tier parameters, `struct cake_tier_config` in `intf.h`. -/
structure cake_tier_config where
  starvation_ns : Nat
  wait_budget_ns : Nat
  multiplier : Nat

/-- The consolidated tier table `tier_configs[8]` from `cake.bpf.c`, holding the
`CAKE_DEFAULT_*` values of `intf.h` (tier 7 is the padding entry).  Call sites
index it with `tier & 7`, rendered here as `% 8` at the call site. -/
def tier_configs (t : Nat) : cake_tier_config :=
  match t with
  | 0 => ⟨5000000, 100000, 717⟩
  | 1 => ⟨3000000, 750000, 819⟩
  | 2 => ⟨4000000, 2000000, 922⟩
  | 3 => ⟨8000000, 4000000, 1024⟩
  | 4 => ⟨16000000, 8000000, 1126⟩
  | 5 => ⟨40000000, 20000000, 1229⟩
  | 6 => ⟨100000000, 0, 1331⟩
  | _ => ⟨100000000, 0, 1024⟩

/-- Loader-set scalar configuration (`const volatile` globals of `cake.bpf.c`). -/
structure Config where
  quantum_ns : Nat
  new_flow_bonus_ns : Nat
  sparse_threshold : Nat
  enable_stats : Bool

/-- The defaults from `intf.h`: 2 ms quantum, 8 ms new-flow bonus, 50 permille. -/
def defaultConfig : Config :=
  { quantum_ns := 2000000, new_flow_bonus_ns := 8000000,
    sparse_threshold := 50, enable_stats := false }

/-- Precomputed in `cake_init`: `cached_threshold_ns = (quantum_ns * sparse_threshold) >> 10`. -/
def cached_threshold_ns (cfg : Config) : Nat :=
  ((cfg.quantum_ns * cfg.sparse_threshold) % 2^64) >>> 10

/-- Per-task context, `struct cake_task_ctx`.  All fields are the C widths
reduced to `Nat` (u64 `next_slice`, u32 `packed_info`/timestamps/ids,
u16 `deficit_us`/`avg_runtime_us`). -/
structure cake_task_ctx where
  next_slice : Nat
  packed_info : Nat
  deficit_us : Nat
  avg_runtime_us : Nat
  last_run_at : Nat
  last_wake_ts : Nat
  target_dsq_id : Nat
  rng_state : Nat

/-- Per-CPU statistics, `struct cake_stats`.  The u64 counters are modelled as
unbounded `Nat` (their 2^64 wrap is never reached by the claims considered). -/
structure cake_stats where
  nr_new_flow_dispatches : Nat
  nr_old_flow_dispatches : Nat
  nr_tier_dispatches : Nat → Nat
  nr_sparse_promotions : Nat
  nr_sparse_demotions : Nat
  nr_wait_demotions : Nat
  total_wait_ns : Nat
  nr_waits : Nat
  max_wait_ns : Nat
  nr_starvation_preempts_tier : Nat → Nat
  nr_input_preempts : Nat

/-- Zeroed statistics (fresh per-CPU map entry). -/
def emptyStats : cake_stats :=
  { nr_new_flow_dispatches := 0, nr_old_flow_dispatches := 0,
    nr_tier_dispatches := fun _ => 0, nr_sparse_promotions := 0,
    nr_sparse_demotions := 0, nr_wait_demotions := 0, total_wait_ns := 0,
    nr_waits := 0, max_wait_ns := 0,
    nr_starvation_preempts_tier := fun _ => 0, nr_input_preempts := 0 }

/-! Accessor macros for `packed_info`.
Layout (`intf.h`): `[Flags:4][Tier:3][Score:7][Wait:8][Error:8]`,
with shifts 26/23/16/8/0 and masks 0x0F/0x07/0x7F/0xFF/0xFF. -/

/-- `GET_SPARSE_SCORE`: `(packed >> 16) & 0x7F`. -/
def GET_SPARSE_SCORE (p : Nat) : Nat := (p >>> 16) &&& 0x7F

/-- `GET_WAIT_DATA`: `(packed >> 8) & 0xFF` (`violations << 4 | checks`). -/
def GET_WAIT_DATA (p : Nat) : Nat := (p >>> 8) &&& 0xFF

/-- `GET_TIER`: `(packed >> 23) & 0x07`. -/
def GET_TIER (p : Nat) : Nat := (p >>> 23) &&& 0x07

/-! ### Pure compute helpers of `cake.bpf.c` -/

/-- `compute_ema_runtime`: EMA with alpha = 1/8.  `meas_us` is the u32 cast of
`runtime_ns >> 10` capped at 65535; the s32 `diff >> 3` is an arithmetic shift,
i.e. floor division by 8; the result is cast back to u16. -/
def compute_ema_runtime (old_avg_us : Nat) (runtime_ns : Nat) : Nat :=
  let meas0 : Nat := (runtime_ns >>> 10) % 2^32
  let meas_us : Nat := if meas0 > 65535 then 65535 else meas0
  if old_avg_us = 0 then
    meas_us
  else
    let diff : Int := (meas_us : Int) - (old_avg_us : Int)
    ((((old_avg_us : Int) + diff.fdiv 8)) % 65536).toNat

/-- `compute_sparse_score`: asymmetric +4 / -6 update clamped to [0, 100]. -/
def compute_sparse_score (cfg : Config) (old_score : Nat) (runtime_ns : Nat) : Nat :=
  let sparse_result : Int := (old_score : Int) + 4
  let heavy_result : Int := (old_score : Int) - 6
  let sparse : Bool := runtime_ns < cached_threshold_ns cfg
  let raw_score : Int := if sparse then sparse_result else heavy_result
  if raw_score < 0 then 0
  else if raw_score > 100 then 100
  else raw_score.toNat

/-- `compute_tier`: score bands, with the latency gates applied at score 100
(`LATENCY_GATE_CRITICAL = 50`, `LATENCY_GATE_REALTIME = 500`, default Critical). -/
def compute_tier (score : Nat) (avg_us : Nat) : Nat :=
  if score < 30 then 6
  else if score < 50 then 5
  else if score < 70 then 4
  else if score < 90 then 3
  else if score < 100 then 2
  else if 0 < avg_us then
    (if avg_us < 50 then 0 else if avg_us < 500 then 1 else 2)
  else 2

/-- `compute_slice`: `max(deficit_us << 10, quantum_ns) * multiplier[tier & 7] >> 10`
(u64 arithmetic). -/
def compute_slice (cfg : Config) (deficit_us : Nat) (tier : Nat) : Nat :=
  let deficit_ns : Nat := deficit_us <<< 10
  let base_slice : Nat := if deficit_ns > cfg.quantum_ns then deficit_ns else cfg.quantum_ns
  ((base_slice * (tier_configs (tier % 8)).multiplier) % 2^64) >>> 10

/-- `compute_deficit`: DRR++ credit, `deficit - min(deficit, runtime_us)`. -/
def compute_deficit (old_deficit_us : Nat) (runtime_ns : Nat) : Nat :=
  let runtime_us : Nat := (runtime_ns >>> 10) % 2^32
  if runtime_us < old_deficit_us then old_deficit_us - runtime_us else 0

/-- `alloc_task_ctx_cold`: fresh context with tier Interactive (4), score 50,
flags NEW, deficit `(quantum + bonus) >> 10` as u16, everything else zero. -/
def alloc_task_ctx (cfg : Config) : cake_task_ctx :=
  { next_slice := cfg.quantum_ns
    deficit_us := (((cfg.quantum_ns + cfg.new_flow_bonus_ns) % 2^64) >>> 10) % 2^16
    last_run_at := 0
    last_wake_ts := 0
    avg_runtime_us := 0
    rng_state := 0
    target_dsq_id := 0
    packed_info :=
      ((255 &&& 0xFF) <<< 0) ||| ((0 &&& 0xFF) <<< 8) ||| ((50 &&& 0x7F) <<< 16) |||
      ((4 &&& 0x07) <<< 23) ||| ((1 &&& 0x0F) <<< 26) }

/-! ### DSQ ids and enqueue (`cake_enqueue`) -/

/-- Relevant bits of `enq_flags`: `SCX_ENQ_WAKEUP` and `SCX_ENQ_PREEMPT`. -/
structure EnqFlags where
  wakeup : Bool
  preempt : Bool

/-- Outcome of one `cake_enqueue` call: the updated context, the single DSQ
the task was inserted into (`scx_bpf_dsq_insert`), the slice passed along,
and the updated statistics. -/
structure EnqResult where
  tctx : Option cake_task_ctx
  dsq_id : Nat
  slice : Nat
  stats : cake_stats

/-- `cake_enqueue`: consume-and-clear the mailbox target on WAKEUP, route
yields (neither WAKEUP nor PREEMPT) to `BACKGROUND_DSQ` (6) with a quantum
slice, fall back to `INTERACTIVE_DSQ` (4) without a context, and otherwise
insert into the task's tier DSQ with the precomputed slice. -/
def cake_enqueue (cfg : Config) (tctx0 : Option cake_task_ctx) (enq_flags : EnqFlags)
    (stats : cake_stats) : EnqResult :=
  match tctx0 with
  | some tctx1 =>
    let target := tctx1.target_dsq_id
    let tctx := { tctx1 with target_dsq_id := 0 }
    if enq_flags.wakeup ∧ target ≠ 0 then
      ⟨some tctx, target, tctx.next_slice, stats⟩
    else if ¬ enq_flags.wakeup ∧ ¬ enq_flags.preempt then
      ⟨some tctx, 6, cfg.quantum_ns, stats⟩
    else
      let tier := GET_TIER tctx.packed_info
      let slice := tctx.next_slice
      let stats1 :=
        if cfg.enable_stats then
          let sA :=
            if enq_flags.wakeup then
              { stats with nr_new_flow_dispatches := stats.nr_new_flow_dispatches + 1 }
            else
              { stats with nr_old_flow_dispatches := stats.nr_old_flow_dispatches + 1 }
          let bounded_tier := tier &&& 0x7
          if bounded_tier < 7 then
            { sA with nr_tier_dispatches := fun i =>
                if i = bounded_tier then sA.nr_tier_dispatches i + 1
                else sA.nr_tier_dispatches i }
          else sA
        else stats
      ⟨some tctx, tier, slice, stats1⟩
  | none =>
    if ¬ enq_flags.wakeup ∧ ¬ enq_flags.preempt then
      ⟨none, 6, cfg.quantum_ns, stats⟩
    else
      ⟨none, 4, cfg.quantum_ns, stats⟩

/-! ### Dispatch (`cake_dispatch`) -/

/-- The two fields of `prev` that `cake_dispatch` reads. -/
structure PrevTask where
  pid : Nat
  sum_exec_runtime : Nat

/-- The strict-priority scan of the seven tier DSQs (lines 799-805):
Critical-Latency 0, Realtime 1, Critical 2, Gaming 3, Interactive 4,
Batch 5, Background 6, stopping at the first successful pull. -/
def dispatch_priority_scan (pull : Nat → Bool) : Option Nat :=
  if pull 0 then some 0
  else if pull 1 then some 1
  else if pull 2 then some 2
  else if pull 3 then some 3
  else if pull 4 then some 4
  else if pull 5 then some 5
  else if pull 6 then some 6
  else none

/-- `cake_dispatch`: drain this CPU's mailbox (`CAKE_DSQ_LC_BASE + cpu`,
base 1000) first; then, when the lottery coin
`(prev ? prev->pid ^ prev->se.sum_exec_runtime : 1) & 0xF` is zero, try
Background then Interactive; finally the strict priority scan.  Returns the
id of the DSQ whose `scx_bpf_dsq_move_to_local` succeeded, if any. -/
def cake_dispatch (cpu : Nat) (prev : Option PrevTask) (pull : Nat → Bool) : Option Nat :=
  if pull (1000 + cpu) then some (1000 + cpu)
  else
    let starvation_bits : Nat :=
      match prev with
      | some p => p.pid ^^^ p.sum_exec_runtime
      | none => 1
    if starvation_bits &&& 0xF = 0 then
      if pull 6 then some 6
      else if pull 4 then some 4
      else dispatch_priority_scan pull
    else dispatch_priority_scan pull

/-! ### Running (`cake_running`) -/

/-- `cake_running`, restricted to the per-task context and statistics it
writes.  (Lines 839-857 additionally update the current CPU's shadow bit in
the global `victim_mask`; they read the tier but touch no task field and no
statistic, so they are not part of this per-task model.  The early return for
a CPU id of 64 or more at line 836 is likewise outside the model, which -
like the bitmask design itself - covers CPUs 0-63.)  The AQM block runs
only when a wake is pending (`last_wake_ts > 0`); `wait_time` is the u32
difference `(u32)now - last_wake_ts`. -/
def cake_running (cfg : Config) (tctx : cake_task_ctx) (stats : cake_stats)
    (now : Nat) : cake_task_ctx × cake_stats :=
  let tier := GET_TIER tctx.packed_info
  let now_ts := now % 2^32
  let last_wake := tctx.last_wake_ts
  let avg_runtime0 := tctx.avg_runtime_us
  let packed0 := tctx.packed_info
  if 0 < last_wake then
    let wait_time := (now_ts + 2^32 - last_wake) % 2^32
    let avg_runtime := if wait_time > 33000000 then avg_runtime0 / 2 else avg_runtime0
    let stats1 :=
      if cfg.enable_stats then
        { stats with
          total_wait_ns := stats.total_wait_ns + wait_time
          nr_waits := stats.nr_waits + 1
          max_wait_ns := if wait_time > stats.max_wait_ns then wait_time else stats.max_wait_ns }
      else stats
    let wait_data := GET_WAIT_DATA packed0
    let checks0 := wait_data &&& 0xF
    let violations0 := wait_data >>> 4
    let checks := checks0 + 1
    let budget_ns := (tier_configs (tier % 8)).wait_budget_ns
    let violations := if 0 < budget_ns ∧ budget_ns < wait_time then violations0 + 1 else violations0
    let pk :=
      if 10 ≤ checks ∧ tier < 6 then
        if 3 ≤ violations then
          let current_score := GET_SPARSE_SCORE packed0
          let penalized := if 10 < current_score then current_score - 10 else 0
          let p1 := packed0 &&& u32_not (0x7F <<< 16)
          let p2 := p1 ||| ((penalized &&& 0x7F) <<< 16)
          let p3 := p2 &&& u32_not (0xFF <<< 8)
          (p3, if cfg.enable_stats then
            { stats1 with nr_wait_demotions := stats1.nr_wait_demotions + 1 }
          else stats1)
        else
          (packed0 &&& u32_not (0xFF <<< 8), stats1)
      else
        let checksS := if 15 ≤ checks then 15 else checks
        let violationsS := if 15 ≤ violations then 15 else violations
        let new_wait := (violationsS <<< 4) ||| checksS
        ((packed0 &&& u32_not (0xFF <<< 8)) ||| ((new_wait &&& 0xFF) <<< 8), stats1)
    ({ tctx with packed_info := pk.1, avg_runtime_us := avg_runtime,
                 last_wake_ts := 0, last_run_at := now_ts }, pk.2)
  else
    ({ tctx with last_wake_ts := 0, last_run_at := now_ts }, stats)

/-! ### Stopping (`cake_stopping`) -/

/-- `cake_stopping`: no-op without a run timestamp; otherwise the fused
load-compute-store block: EMA, sparse score, deficit, tier, next slice, the
promotion/demotion statistics on crossing `THRESHOLD_GAMING` (70), and the
packed-word writeback of the new score and tier.  `runtime` is the u32
difference `(u32)now - last_run_at`. -/
def cake_stopping (cfg : Config) (tctx : cake_task_ctx) (stats : cake_stats)
    (now : Nat) : cake_task_ctx × cake_stats :=
  if tctx.last_run_at = 0 then (tctx, stats)
  else
    let packed := tctx.packed_info
    let old_avg_us := tctx.avg_runtime_us
    let old_deficit_us := tctx.deficit_us
    let last_run := tctx.last_run_at
    let old_score := GET_SPARSE_SCORE packed
    let runtime := (now % 2^32 + 2^32 - last_run) % 2^32
    let new_avg_us := compute_ema_runtime old_avg_us runtime
    let new_score := compute_sparse_score cfg old_score runtime
    let new_deficit_us := compute_deficit old_deficit_us runtime
    let new_tier := compute_tier new_score new_avg_us
    let new_slice := compute_slice cfg new_deficit_us new_tier
    let stats1 :=
      if cfg.enable_stats then
        let was_gaming : Bool := 70 ≤ old_score
        let is_gaming : Bool := 70 ≤ new_score
        if was_gaming ≠ is_gaming then
          if is_gaming then
            { stats with nr_sparse_promotions := stats.nr_sparse_promotions + 1 }
          else
            { stats with nr_sparse_demotions := stats.nr_sparse_demotions + 1 }
        else stats
      else stats
    let np1 := packed &&& u32_not (0x7F <<< 16)
    let np2 := np1 &&& u32_not (0x07 <<< 23)
    let np3 := np2 ||| ((new_score &&& 0x7F) <<< 16)
    let np4 := np3 ||| ((new_tier &&& 0x07) <<< 23)
    ({ tctx with avg_runtime_us := new_avg_us, deficit_us := new_deficit_us,
                 next_slice := new_slice, packed_info := np4 }, stats1)

/-! ### Tick (`cake_tick`) -/

/-- `xorshift32`, value only: self-seeds from the u32 clock when the state is
zero, then three xor-shift rounds on u32. -/
def xorshift32_val (rng_state : Nat) (now : Nat) : Nat :=
  let x0 := if rng_state = 0 then now % 2^32 else rng_state
  let x1 := x0 ^^^ ((x0 <<< 13) % 2^32)
  let x2 := x1 ^^^ (x1 >>> 17)
  x2 ^^^ ((x2 <<< 5) % 2^32)

/-- `cake_tick`: starvation check with XorShift jitter.  Updates `rng_state`,
possibly increments the per-tier starvation counter, and reports whether the
CPU was kicked (`SCX_KICK_PREEMPT`).  The two clock reads of the C body are
modelled as the single value `now`. -/
def cake_tick (cfg : Config) (tctx : cake_task_ctx) (stats : cake_stats)
    (now : Nat) : cake_task_ctx × cake_stats × Bool :=
  if 0 < tctx.last_run_at then
    let tier := GET_TIER tctx.packed_info
    let last_run := tctx.last_run_at
    let threshold0 := (tier_configs (tier % 8)).starvation_ns
    let x := xorshift32_val tctx.rng_state now
    let tctx1 := { tctx with rng_state := x }
    let jitter := x &&& 0x7F
    let threshold := threshold0 + (jitter <<< 10)
    let runtime := (now % 2^32 + 2^32 - last_run) % 2^32
    if runtime > threshold then
      let stats1 :=
        if cfg.enable_stats ∧ tier < 7 then
          { stats with nr_starvation_preempts_tier := fun i =>
              if i = tier then stats.nr_starvation_preempts_tier i + 1
              else stats.nr_starvation_preempts_tier i }
        else stats
      (tctx1, stats1, true)
    else (tctx1, stats, false)
  else (tctx, stats, false)

/-! ### CPU selection (`cake_select_cpu`) -/

/-- `__builtin_ctzll` restricted to u64 operands: index of the lowest set bit
(64 when none is set; the C call sites only reach it on nonzero masks). -/
def ctz64 (m : Nat) : Nat := ((List.range 64).find? (fun i => m.testBit i)).getD 64

/-- `struct topology_vector`: up to 8 preferred CPUs plus a count. -/
structure topology_vector where
  cpus : List Nat
  count : Nat

/-- `find_first_idle_cpu`: O(1) bitmask scan, preferring `prev_cpu`. -/
def find_first_idle_cpu (idle_mask : Nat) (prev_cpu : Int) : Option Nat :=
  if idle_mask = 0 then none
  else if 0 ≤ prev_cpu ∧ prev_cpu < 64 ∧ idle_mask.testBit prev_cpu.toNat then
    some prev_cpu.toNat
  else some (ctz64 idle_mask)

/-- `find_first_idle_cpu_topo`: `prev_cpu` first, then the precomputed
preference vector (skipping out-of-range candidates), then the global scan.
The map key is `(u32)prev_cpu` clamped to 0 when at least `CAKE_MAX_CPUS`. -/
def find_first_idle_cpu_topo (idle_mask : Nat) (topo : Nat → Option topology_vector)
    (prev_cpu : Int) : Option Nat :=
  if idle_mask = 0 then none
  else if 0 ≤ prev_cpu ∧ prev_cpu < 64 ∧ idle_mask.testBit prev_cpu.toNat then
    some prev_cpu.toNat
  else
    let key := if 0 ≤ prev_cpu ∧ prev_cpu < 64 then prev_cpu.toNat else 0
    match topo key with
    | some vec =>
      if 0 < vec.count then
        match (vec.cpus.take (min vec.count 8)).find?
            (fun c => decide (c < 64) && idle_mask.testBit c) with
        | some c => some c
        | none => some (ctz64 idle_mask)
      else some (ctz64 idle_mask)
    | none => some (ctz64 idle_mask)

/-- Environment the `cake_select_cpu` body loads: the two global masks, the
current CPU id, the topology tables and flags, and the CPU that the kernel
fallback `scx_bpf_select_cpu_dfl` would return when no context exists.  A
single value of each mask stands for all of the body's loads of it (the
callback is modelled as running without concurrent writers). -/
structure SelEnv where
  victim_mask : Nat
  idle_mask : Nat
  this_cpu : Nat
  topo : Nat → Option topology_vector
  has_multi_llc : Bool
  has_hybrid : Bool
  cpu_is_big : Nat → Bool
  big_cpu_mask : Nat
  dfl_cpu : Int

/-- Outcome of one `cake_select_cpu` call. -/
structure SelResult where
  cpu : Int
  tctx : Option cake_task_ctx
  stats : cake_stats

/-- `cake_select_cpu`: speculative victim, `last_wake_ts = (u32)now` before
any early return, the SYNC fast path to this CPU's mailbox, the idle-CPU
scan (topology-aware for tiers 0-1 or when multi-LLC/hybrid), the hybrid
E-core to P-core swap for tiers up to Gaming, direct dispatch to an idle
CPU's mailbox, the tier-0 victim fast lane, and the `prev_cpu` fallback. -/
def cake_select_cpu (cfg : Config) (env : SelEnv) (tctx0 : Option cake_task_ctx)
    (prev_cpu : Int) (wake_sync : Bool) (now : Nat) (stats : cake_stats) : SelResult :=
  let spec_victim_cpu : Int := if env.victim_mask ≠ 0 then (ctz64 env.victim_mask : Int) else -1
  match tctx0 with
  | none => ⟨env.dfl_cpu, none, stats⟩
  | some t0 =>
    let tctx := { t0 with last_wake_ts := now % 2^32 }
    if wake_sync ∧ env.this_cpu < 64 then
      ⟨(env.this_cpu : Int), some { tctx with target_dsq_id := 1000 + env.this_cpu }, stats⟩
    else
      let tier := GET_TIER tctx.packed_info
      let idle_mask := env.idle_mask
      let bounded_prev := (prev_cpu % (2^32 : Int)).toNat % 64
      let prev_idle := idle_mask.testBit bounded_prev
      let prev_valid := 0 ≤ prev_cpu ∧ prev_cpu < 64
      let found : Option Nat :=
        if prev_valid ∧ prev_idle then some bounded_prev
        else if tier ≤ 1 then find_first_idle_cpu_topo idle_mask env.topo prev_cpu
        else if env.has_multi_llc ∨ env.has_hybrid then
          find_first_idle_cpu_topo idle_mask env.topo prev_cpu
        else find_first_idle_cpu idle_mask prev_cpu
      match found with
      | some cpu0 =>
        let cpu :=
          if env.has_hybrid ∧ tier ≤ 3 ∧ cpu0 < 64 ∧ ¬ env.cpu_is_big cpu0 then
            let p_candidates := idle_mask &&& env.big_cpu_mask
            if p_candidates ≠ 0 then ctz64 p_candidates else cpu0
          else cpu0
        let stats1 :=
          if cfg.enable_stats then
            { stats with nr_new_flow_dispatches := stats.nr_new_flow_dispatches + 1 }
          else stats
        ⟨(cpu : Int), some { tctx with target_dsq_id := 1000 + cpu }, stats1⟩
      | none =>
        if tier = 0 ∧ 0 ≤ spec_victim_cpu then
          let stats1 :=
            if cfg.enable_stats then
              { stats with nr_input_preempts := stats.nr_input_preempts + 1 }
            else stats
          ⟨spec_victim_cpu, some { tctx with target_dsq_id := 1000 + spec_victim_cpu.toNat },
            stats1⟩
        else ⟨prev_cpu, some tctx, stats⟩

/-! ### Idle/victim mask state machine (`cake_update_idle`, `cake_init`) -/

/-- Per-CPU shadow state, `struct cake_cpu_shadow`. -/
structure cake_cpu_shadow where
  is_idle : Bool
  is_victim : Bool

/-- The global mask state: `idle_global.mask`, `victim_global.mask`, and each
CPU's shadow entry of `cpu_shadow_map`.  `ops.update_idle(cpu, idle)` runs on
the CPU entering or leaving idle, so its `get_shadow_state()` lookup is
modelled as `shadow cpu`. -/
structure MaskState where
  idle_mask : Nat
  victim_mask : Nat
  shadow : Nat → cake_cpu_shadow

/-- `cake_update_idle`: cached-cursor pattern.  Out-of-range CPUs are ignored;
if the shadow already matches the new state nothing happens; otherwise the
global bit is set or cleared (and on going idle a set victim shadow bit is
cleared as well), and the shadow is updated. -/
def cake_update_idle (s : MaskState) (cpu : Int) (idle : Bool) : MaskState :=
  if cpu < 0 ∨ 64 ≤ cpu then s
  else
    let c := cpu.toNat
    if (s.shadow c).is_idle = idle then s
    else
      let mask := (1 <<< c : Nat)
      if idle then
        let s1 := { s with idle_mask := s.idle_mask ||| mask }
        let s2 :=
          if (s1.shadow c).is_victim then
            { s1 with victim_mask := s1.victim_mask &&& u64_not mask
                      shadow := fun j => if j = c then
                          { (s1.shadow j) with is_victim := false }
                        else s1.shadow j }
          else s1
        { s2 with shadow := fun j => if j = c then
              { (s2.shadow j) with is_idle := idle }
            else s2.shadow j }
      else
        { s with idle_mask := s.idle_mask &&& u64_not mask
                 shadow := fun j => if j = c then
                     { (s.shadow j) with is_idle := idle }
                   else s.shadow j }

/-- The idle-mask pre-warm loop of `cake_init`: for each online CPU below 64
whose current task is the idle task, set the bit.  The per-CPU shadows are
fresh BSS and stay all-false. -/
def prewarm_idle_mask (nr_cpus : Nat) (idle_at_boot : Nat → Bool) : Nat :=
  (List.range 64).foldl
    (fun m i => if i < nr_cpus ∧ idle_at_boot i then m ||| (1 <<< i) else m) 0

/-- Mask state right after `cake_init`. -/
def cake_init_masks (nr_cpus : Nat) (idle_at_boot : Nat → Bool) : MaskState :=
  { idle_mask := prewarm_idle_mask nr_cpus idle_at_boot
    victim_mask := 0
    shadow := fun _ => { is_idle := false, is_victim := false } }

/-- Fold a sequence of `update_idle(cpu, idle)` callbacks over a mask state. -/
def run_idle_updates (s0 : MaskState) (evs : List (Int × Bool)) : MaskState :=
  evs.foldl (fun s e => cake_update_idle s e.1 e.2) s0

/-- The `idle` argument of the most recent `update_idle` callback for CPU `i`
in the event list, if any. -/
def lastIdleUpdate (evs : List (Int × Bool)) (i : Nat) : Option Bool :=
  (evs.reverse.find? (fun e => decide (e.1 = (i : Int)))).map (fun e => e.2)

/-! ### Wake-run-stop cycles (for the demotion-liveness claim) -/

/-- One wake-run-stop cycle: `select_cpu` at time `t_wake` (non-SYNC wake),
`running` after `wait` ns, `stopping` after a further `runtime` ns. -/
def wake_run_stop_cycle (cfg : Config) (env : SelEnv) (prev_cpu : Int)
    (t_wake wait runtime : Nat) (p : cake_task_ctx × cake_stats) :
    cake_task_ctx × cake_stats :=
  let sel := cake_select_cpu cfg env (some p.1) prev_cpu false t_wake p.2
  let t1 := sel.tctx.getD p.1
  let r := cake_running cfg t1 sel.stats (t_wake + wait)
  cake_stopping cfg r.1 r.2 (t_wake + wait + runtime)

/-- Iterated wake-run-stop cycles with per-cycle wake times, waits and run
lengths. -/
def cake_trajectory (cfg : Config) (env : SelEnv) (prev_cpu : Int)
    (t_wake wait runtime : Nat → Nat) (p0 : cake_task_ctx × cake_stats) :
    Nat → cake_task_ctx × cake_stats
  | 0 => p0
  | n+1 => wake_run_stop_cycle cfg env prev_cpu (t_wake n) (wait n) (runtime n)
      (cake_trajectory cfg env prev_cpu t_wake wait runtime p0 n)

/-! ### Concrete scenario instances -/

/-- A minimal environment: no idle CPUs, no victims, no topology tables. -/
def plainEnv : SelEnv :=
  { victim_mask := 0, idle_mask := 0, this_cpu := 0, topo := fun _ => none,
    has_multi_llc := false, has_hybrid := false, cpu_is_big := fun _ => false,
    big_cpu_mask := 0, dfl_cpu := 0 }

/-- Scenario 1 configuration of the spec: 4 ms quantum, 8 ms bonus,
100 permille threshold. -/
def c5Config : Config :=
  { quantum_ns := 4000000, new_flow_bonus_ns := 8000000,
    sparse_threshold := 100, enable_stats := false }

/-- Fresh context under the scenario 1 configuration. -/
def c5_ctx0 : cake_task_ctx := alloc_task_ctx c5Config

/-- The fresh context after its first `running` at t = 1000 ns (no pending
wake, so this only stamps `last_run_at`). -/
def c5_ctx1 : cake_task_ctx := (cake_running c5Config c5_ctx0 emptyStats 1000).1

/-- The context after a single `stopping` following a run of exactly
50 000 ns. -/
def c5_ctx2 : cake_task_ctx := (cake_stopping c5Config c5_ctx1 emptyStats 51000).1

/-- Default configuration with statistics enabled (scenario 3). -/
def c6Config : Config :=
  { quantum_ns := 2000000, new_flow_bonus_ns := 8000000,
    sparse_threshold := 50, enable_stats := true }

/-- A context holding sparse score 90 (tier Critical, some run history),
running since t = 1000 ns. -/
def c6_ctx0 : cake_task_ctx :=
  { next_slice := 2000000
    packed_info :=
      ((255 &&& 0xFF) <<< 0) ||| ((0 &&& 0xFF) <<< 8) ||| ((90 &&& 0x7F) <<< 16) |||
      ((2 &&& 0x07) <<< 23) ||| ((1 &&& 0x0F) <<< 26)
    deficit_us := 0
    avg_runtime_us := 100
    last_run_at := 1000
    last_wake_ts := 0
    target_dsq_id := 0
    rng_state := 0 }

/-- Context and statistics after a single bulk run of 5 000 000 ns
(well above `cached_threshold_ns = 97 656`). -/
def c6_res : cake_task_ctx × cake_stats :=
  cake_stopping c6Config c6_ctx0 emptyStats 5001000

/-- Counterexample trajectory for the demotion-liveness claim: every cycle
waits 50 ms (above every tier's wait budget) but runs only 50 µs (sparse),
starting from a fresh task. -/
def c7_traj (n : Nat) : cake_task_ctx × cake_stats :=
  cake_trajectory defaultConfig plainEnv 0 (fun _ => 1) (fun _ => 50000000)
    (fun _ => 50000) (alloc_task_ctx defaultConfig, emptyStats) n

/-- Mask state of the idle-tracking counterexample: one CPU, idle at init
(so pre-warmed into `idle_mask`), then a single `update_idle(0, false)`. -/
def c8_state : MaskState :=
  run_idle_updates (cake_init_masks 1 (fun i => decide (i = 0))) [((0 : Int), false)]

/-- A context with a pending wake (`last_wake_ts = 5`). -/
def c9_ctx0 : cake_task_ctx :=
  { alloc_task_ctx defaultConfig with last_wake_ts := 5 }

/-- `select_cpu` invoked at a clock value whose low 32 bits are zero. -/
def c9_sel : SelResult :=
  cake_select_cpu defaultConfig plainEnv (some c9_ctx0) 0 false (2^32) emptyStats

/-- A context for exercising the AQM demotion window: wait data 57
(violations 3, checks 9), score 80, tier Gaming, pending wake at t = 1000. -/
def c4_ctx : cake_task_ctx :=
  { next_slice := 2000000, packed_info := 30423551, deficit_us := 100,
    avg_runtime_us := 50, last_run_at := 500, last_wake_ts := 1000,
    target_dsq_id := 0, rng_state := 0 }

/-! ### Lemmas and claim theorems -/

theorem shiftRight_and_mask (x k n : Nat) : (x >>> k) &&& (2^n - 1) = x / 2^k % 2^n := by
  rw [← Nat.shiftRight_eq_div_pow]
  apply Nat.eq_of_testBit_eq
  intro i
  simp [Nat.testBit_and, Nat.testBit_mod_two_pow, Nat.testBit_two_pow_sub_one, Bool.and_comm]

theorem and_mask_eq_mod (x n : Nat) : x &&& (2^n - 1) = x % 2^n := by
  have h := shiftRight_and_mask x 0 n
  simpa using h

theorem and_not_shiftRight (x k n : Nat) (hx : x < 2^32) (hkn : k + n ≤ 32) :
    (x &&& u32_not ((2^n - 1) <<< k)) >>> k = (x >>> (k+n)) <<< n := by
  apply Nat.eq_of_testBit_eq
  intro i
  simp only [u32_not, Nat.testBit_and, Nat.testBit_xor, Nat.testBit_shiftLeft,
    Nat.testBit_shiftRight, Nat.testBit_two_pow_sub_one]
  have h32 : (0xFFFFFFFF : Nat) = 2^32 - 1 := by norm_num
  rw [h32, Nat.testBit_two_pow_sub_one]
  by_cases hi : i < n
  · have hlt : k + i < 32 := by omega
    have hni : ¬ (n ≤ i) := by omega
    simp [hlt, hi, hni, Nat.le_add_right, show k ≤ k + i by omega, show k + i - k = i by omega]
  · by_cases hb : k + i < 32
    · have hni : n ≤ i := by omega
      simp [hb, hni, show k ≤ k + i by omega, show ¬ (k + i - k < n) by omega,
        show k + n + (i - n) = k + i by omega]
    · have hxbit : x.testBit (k+i) = false :=
        Nat.testBit_lt_two_pow (lt_of_lt_of_le hx (Nat.pow_le_pow_right (by omega) (by omega)))
      have hxbit2 : x.testBit (k+n+(i-n)) = false :=
        Nat.testBit_lt_two_pow (lt_of_lt_of_le hx (Nat.pow_le_pow_right (by omega) (by omega)))
      simp [hxbit, hxbit2, show n ≤ i by omega]

theorem and_not_mod (x k n : Nat) (hkn : k + n ≤ 32) :
    (x &&& u32_not ((2^n - 1) <<< k)) % 2^k = x % 2^k := by
  apply Nat.eq_of_testBit_eq
  intro i
  simp only [u32_not, Nat.testBit_and, Nat.testBit_xor, Nat.testBit_shiftLeft,
    Nat.testBit_mod_two_pow, Nat.testBit_two_pow_sub_one]
  have h32 : (0xFFFFFFFF : Nat) = 2^32 - 1 := by norm_num
  rw [h32, Nat.testBit_two_pow_sub_one]
  by_cases hi : i < k
  · simp [hi, show ¬ (k ≤ i) by omega, show i < 32 by omega]
  · simp [hi]

/-- Clearing the `n`-bit field at offset `k` of a u32, as arithmetic. -/
theorem and_not_field (x k n : Nat) (hx : x < 2^32) (hkn : k + n ≤ 32) :
    x &&& u32_not ((2^n - 1) <<< k) = x % 2^k + 2^(k+n) * (x / 2^(k+n)) := by
  have h1 := Nat.div_add_mod (x &&& u32_not ((2^n - 1) <<< k)) (2^k)
  rw [← Nat.shiftRight_eq_div_pow] at h1
  rw [and_not_shiftRight x k n hx hkn] at h1
  rw [and_not_mod x k n hkn] at h1
  rw [Nat.shiftLeft_eq, Nat.shiftRight_eq_div_pow] at h1
  rw [← h1, pow_add]
  ring

theorem or_field_mod (x k n v : Nat) (hf : x / 2^k % 2^n = 0) (hv : v < 2^n) :
    (x ||| (v <<< k)) % 2^k = x % 2^k := by
  apply Nat.eq_of_testBit_eq
  intro i
  simp only [Nat.testBit_or, Nat.testBit_shiftLeft, Nat.testBit_mod_two_pow]
  by_cases hi : i < k
  · simp [hi, show ¬ (k ≤ i) by omega]
  · simp [hi]

theorem or_field_extract (x k n v : Nat) (hf : x / 2^k % 2^n = 0) (hv : v < 2^n) :
    (x ||| (v <<< k)) / 2^k % 2^n = v := by
  have hxmid : ∀ j, j < n → x.testBit (k + j) = false := by
    intro j hj
    have hget : x / 2^k % 2^n = (x >>> k) &&& (2^n - 1) := (shiftRight_and_mask x k n).symm
    rw [hget] at hf
    have hbit := congrArg (fun y => Nat.testBit y j) hf
    simpa [Nat.testBit_and, Nat.testBit_shiftRight, Nat.testBit_two_pow_sub_one, hj] using hbit
  rw [← Nat.shiftRight_eq_div_pow]
  apply Nat.eq_of_testBit_eq
  intro i
  simp only [Nat.testBit_mod_two_pow, Nat.testBit_shiftRight, Nat.testBit_or,
    Nat.testBit_shiftLeft]
  by_cases hi : i < n
  · have hx0 := hxmid i hi
    simp [hi, hx0, show k ≤ k + i by omega, show k + i - k = i by omega]
  · have hvb : v.testBit i = false :=
      Nat.testBit_lt_two_pow (lt_of_lt_of_le hv (Nat.pow_le_pow_right (by omega) (by omega)))
    simp [hi, hvb]

theorem or_field_shiftRight (x k n v : Nat) (hv : v < 2^n) :
    (x ||| (v <<< k)) >>> (k+n) = x >>> (k+n) := by
  apply Nat.eq_of_testBit_eq
  intro i
  simp only [Nat.testBit_shiftRight, Nat.testBit_or, Nat.testBit_shiftLeft]
  have hvb : v.testBit (k + n + i - k) = false :=
    Nat.testBit_lt_two_pow (lt_of_lt_of_le hv (Nat.pow_le_pow_right (by omega) (by omega)))
  simp [hvb]

/-- ORing a bounded value into a zeroed `n`-bit field at offset `k`, as arithmetic. -/
theorem or_field (x k n v : Nat) (hf : x / 2^k % 2^n = 0) (hv : v < 2^n) :
    x ||| (v <<< k) = x + v * 2^k := by
  set y := x ||| (v <<< k) with hy
  have e1 : y % 2^k = x % 2^k := or_field_mod x k n v hf hv
  have e2 : y / 2^k % 2^n = v := or_field_extract x k n v hf hv
  have e3 : y / 2^k / 2^n = x / 2^k / 2^n := by
    have h := or_field_shiftRight x k n v hv
    rw [Nat.shiftRight_eq_div_pow, Nat.shiftRight_eq_div_pow, pow_add,
      ← Nat.div_div_eq_div_mul, ← Nat.div_div_eq_div_mul] at h
    exact h
  calc y = 2^k * (y / 2^k) + y % 2^k := (Nat.div_add_mod y (2^k)).symm
    _ = 2^k * (2^n * (y / 2^k / 2^n) + y / 2^k % 2^n) + y % 2^k := by
        rw [Nat.div_add_mod (y / 2^k) (2^n)]
    _ = 2^k * (2^n * (x / 2^k / 2^n) + v) + x % 2^k := by rw [e1, e2, e3]
    _ = (2^k * (2^n * (x / 2^k / 2^n) + x / 2^k % 2^n) + x % 2^k) + v * 2^k := by
        rw [hf]; ring
    _ = 2^k * (x / 2^k) + x % 2^k + v * 2^k := by rw [Nat.div_add_mod]
    _ = x + v * 2^k := by rw [Nat.div_add_mod]

/-! ### Packed-word field lemmas -/

theorem GET_SPARSE_SCORE_eq_div_mod (p : Nat) : GET_SPARSE_SCORE p = p / 2^16 % 2^7 := by
  unfold GET_SPARSE_SCORE
  rw [show (0x7F : Nat) = 2^7 - 1 by norm_num, shiftRight_and_mask]

theorem GET_WAIT_DATA_eq_div_mod (p : Nat) : GET_WAIT_DATA p = p / 2^8 % 2^8 := by
  unfold GET_WAIT_DATA
  rw [show (0xFF : Nat) = 2^8 - 1 by norm_num, shiftRight_and_mask]

theorem GET_TIER_eq_div_mod (p : Nat) : GET_TIER p = p / 2^23 % 2^3 := by
  unfold GET_TIER
  rw [show (0x07 : Nat) = 2^3 - 1 by norm_num, shiftRight_and_mask]

theorem GET_SPARSE_SCORE_le (p : Nat) : GET_SPARSE_SCORE p ≤ 127 := by
  rw [GET_SPARSE_SCORE_eq_div_mod]; omega

theorem GET_WAIT_DATA_le (p : Nat) : GET_WAIT_DATA p ≤ 255 := by
  rw [GET_WAIT_DATA_eq_div_mod]; omega

theorem GET_TIER_le (p : Nat) : GET_TIER p ≤ 7 := by
  rw [GET_TIER_eq_div_mod]; omega

/-- Effect of the AQM demotion writeback (`cake_running` lines 913-919) on the
packed word: score becomes the penalized value, wait data is cleared, the
tier is untouched. -/
theorem aqm_demote_packed (p pen : Nat) (hp : p < 2^32) (hpen : pen ≤ 127) :
    GET_SPARSE_SCORE (((p &&& u32_not (0x7F <<< 16)) ||| ((pen &&& 0x7F) <<< 16)) &&&
        u32_not (0xFF <<< 8)) = pen ∧
    GET_WAIT_DATA (((p &&& u32_not (0x7F <<< 16)) ||| ((pen &&& 0x7F) <<< 16)) &&&
        u32_not (0xFF <<< 8)) = 0 ∧
    GET_TIER (((p &&& u32_not (0x7F <<< 16)) ||| ((pen &&& 0x7F) <<< 16)) &&&
        u32_not (0xFF <<< 8)) = GET_TIER p ∧
    ((p &&& u32_not (0x7F <<< 16)) ||| ((pen &&& 0x7F) <<< 16)) &&&
        u32_not (0xFF <<< 8) < 2^32 := by
  have m7 : (0x7F : Nat) = 2^7 - 1 := by norm_num
  have m8 : (0xFF : Nat) = 2^8 - 1 := by norm_num
  have e0 : pen &&& 0x7F = pen := by
    rw [m7, and_mask_eq_mod]; omega
  rw [e0]
  have h1 : p &&& u32_not (0x7F <<< 16) = p % 65536 + 8388608 * (p / 8388608) := by
    rw [m7]
    have h := and_not_field p 16 7 hp (by norm_num)
    norm_num at h
    exact h
  rw [h1]
  have h2 : (p % 65536 + 8388608 * (p / 8388608)) ||| (pen <<< 16)
      = p % 65536 + 8388608 * (p / 8388608) + pen * 65536 := by
    have h := or_field (p % 65536 + 8388608 * (p / 8388608)) 16 7 pen (by omega) (by omega)
    norm_num at h
    exact h
  rw [h2]
  have h3 : (p % 65536 + 8388608 * (p / 8388608) + pen * 65536) &&& u32_not (0xFF <<< 8)
      = (p % 65536 + 8388608 * (p / 8388608) + pen * 65536) % 256
        + 65536 * ((p % 65536 + 8388608 * (p / 8388608) + pen * 65536) / 65536) := by
    rw [m8]
    have h := and_not_field (p % 65536 + 8388608 * (p / 8388608) + pen * 65536) 8 8
      (by omega) (by norm_num)
    norm_num at h
    exact h
  rw [h3, GET_SPARSE_SCORE_eq_div_mod, GET_WAIT_DATA_eq_div_mod, GET_TIER_eq_div_mod,
    GET_TIER_eq_div_mod]
  norm_num
  refine ⟨by omega, by omega, by omega, by omega⟩

/-- Effect of the AQM wait-data reset (`cake_running` line 924) on the packed
word: wait data cleared, score and tier untouched. -/
theorem aqm_reset_packed (p : Nat) (hp : p < 2^32) :
    GET_SPARSE_SCORE (p &&& u32_not (0xFF <<< 8)) = GET_SPARSE_SCORE p ∧
    GET_WAIT_DATA (p &&& u32_not (0xFF <<< 8)) = 0 ∧
    GET_TIER (p &&& u32_not (0xFF <<< 8)) = GET_TIER p ∧
    p &&& u32_not (0xFF <<< 8) < 2^32 := by
  have m8 : (0xFF : Nat) = 2^8 - 1 := by norm_num
  have h1 : p &&& u32_not (0xFF <<< 8) = p % 256 + 65536 * (p / 65536) := by
    rw [m8]
    have h := and_not_field p 8 8 hp (by norm_num)
    norm_num at h
    exact h
  rw [h1, GET_SPARSE_SCORE_eq_div_mod, GET_SPARSE_SCORE_eq_div_mod,
    GET_WAIT_DATA_eq_div_mod, GET_TIER_eq_div_mod, GET_TIER_eq_div_mod]
  norm_num
  refine ⟨by omega, by omega, by omega, by omega⟩

/-- Effect of the AQM counter writeback (`cake_running` lines 927-933) on the
packed word: wait data becomes `nw`, score and tier untouched. -/
theorem aqm_writeback_packed (p nw : Nat) (hp : p < 2^32) (hnw : nw ≤ 255) :
    GET_SPARSE_SCORE ((p &&& u32_not (0xFF <<< 8)) ||| ((nw &&& 0xFF) <<< 8)) =
      GET_SPARSE_SCORE p ∧
    GET_WAIT_DATA ((p &&& u32_not (0xFF <<< 8)) ||| ((nw &&& 0xFF) <<< 8)) = nw ∧
    GET_TIER ((p &&& u32_not (0xFF <<< 8)) ||| ((nw &&& 0xFF) <<< 8)) = GET_TIER p ∧
    (p &&& u32_not (0xFF <<< 8)) ||| ((nw &&& 0xFF) <<< 8) < 2^32 := by
  have m8 : (0xFF : Nat) = 2^8 - 1 := by norm_num
  have e0 : nw &&& 0xFF = nw := by
    rw [m8, and_mask_eq_mod]; omega
  rw [e0]
  have h1 : p &&& u32_not (0xFF <<< 8) = p % 256 + 65536 * (p / 65536) := by
    rw [m8]
    have h := and_not_field p 8 8 hp (by norm_num)
    norm_num at h
    exact h
  rw [h1]
  have h2 : (p % 256 + 65536 * (p / 65536)) ||| (nw <<< 8)
      = p % 256 + 65536 * (p / 65536) + nw * 256 := by
    have h := or_field (p % 256 + 65536 * (p / 65536)) 8 8 nw (by omega) (by omega)
    norm_num at h
    exact h
  rw [h2, GET_SPARSE_SCORE_eq_div_mod, GET_SPARSE_SCORE_eq_div_mod,
    GET_WAIT_DATA_eq_div_mod, GET_TIER_eq_div_mod, GET_TIER_eq_div_mod]
  norm_num
  refine ⟨by omega, by omega, by omega, by omega⟩

/-- Effect of the `cake_stopping` packed-word writeback (lines 1016-1020):
score becomes `s`, tier becomes `t`, wait data untouched. -/
theorem stopping_writeback_packed (p s t : Nat) (hp : p < 2^32) (hs : s ≤ 127) (ht : t ≤ 7) :
    GET_SPARSE_SCORE ((((p &&& u32_not (0x7F <<< 16)) &&& u32_not (0x07 <<< 23)) |||
        ((s &&& 0x7F) <<< 16)) ||| ((t &&& 0x07) <<< 23)) = s ∧
    GET_TIER ((((p &&& u32_not (0x7F <<< 16)) &&& u32_not (0x07 <<< 23)) |||
        ((s &&& 0x7F) <<< 16)) ||| ((t &&& 0x07) <<< 23)) = t ∧
    GET_WAIT_DATA ((((p &&& u32_not (0x7F <<< 16)) &&& u32_not (0x07 <<< 23)) |||
        ((s &&& 0x7F) <<< 16)) ||| ((t &&& 0x07) <<< 23)) = GET_WAIT_DATA p ∧
    (((p &&& u32_not (0x7F <<< 16)) &&& u32_not (0x07 <<< 23)) |||
        ((s &&& 0x7F) <<< 16)) ||| ((t &&& 0x07) <<< 23) < 2^32 := by
  have m7 : (0x7F : Nat) = 2^7 - 1 := by norm_num
  have m3 : (0x07 : Nat) = 2^3 - 1 := by norm_num
  have es : s &&& 0x7F = s := by rw [m7, and_mask_eq_mod]; omega
  have et : t &&& 0x07 = t := by rw [m3, and_mask_eq_mod]; omega
  rw [es, et]
  have h1 : p &&& u32_not (0x7F <<< 16) = p % 65536 + 8388608 * (p / 8388608) := by
    rw [m7]
    have h := and_not_field p 16 7 hp (by norm_num)
    norm_num at h
    exact h
  rw [h1]
  have h2 : p % 65536 + 8388608 * (p / 8388608) &&& u32_not (7 <<< 23)
      = p % 65536 % 8388608 + 67108864 * ((p % 65536 + 8388608 * (p / 8388608)) / 67108864) := by
    have h := and_not_field (p % 65536 + 8388608 * (p / 8388608)) 23 3 (by omega) (by norm_num)
    norm_num at h
    exact h
  rw [h2]
  have h3 : p % 65536 % 8388608 + 67108864 * ((p % 65536 + 8388608 * (p / 8388608)) / 67108864)
        ||| s <<< 16
      = p % 65536 % 8388608 + 67108864 * ((p % 65536 + 8388608 * (p / 8388608)) / 67108864)
        + s * 65536 := by
    have h := or_field (p % 65536 % 8388608
        + 67108864 * ((p % 65536 + 8388608 * (p / 8388608)) / 67108864)) 16 7 s
      (by omega) (by omega)
    norm_num at h
    exact h
  rw [h3]
  have h4 : p % 65536 % 8388608 + 67108864 * ((p % 65536 + 8388608 * (p / 8388608)) / 67108864)
        + s * 65536 ||| t <<< 23
      = p % 65536 % 8388608 + 67108864 * ((p % 65536 + 8388608 * (p / 8388608)) / 67108864)
        + s * 65536 + t * 8388608 := by
    have h := or_field (p % 65536 % 8388608
        + 67108864 * ((p % 65536 + 8388608 * (p / 8388608)) / 67108864) + s * 65536) 23 3 t
      (by omega) (by omega)
    norm_num at h
    exact h
  rw [h4, GET_SPARSE_SCORE_eq_div_mod, GET_TIER_eq_div_mod, GET_WAIT_DATA_eq_div_mod,
    GET_WAIT_DATA_eq_div_mod]
  norm_num
  refine ⟨by omega, by omega, by omega, by omega⟩

theorem and_fifteen (z : Nat) : z &&& 0xF = z % 16 := by
  rw [show (0xF : Nat) = 2^4 - 1 by norm_num, and_mask_eq_mod]
  norm_num

theorem shiftRight_four (z : Nat) : z >>> 4 = z / 16 := by
  rw [Nat.shiftRight_eq_div_pow]

theorem or_nibbles : ∀ v < 16, ∀ c < 16, (v <<< 4) ||| c = v * 16 + c := by decide

/-- Values of `compute_sparse_score` stay in [0, 100]. -/
theorem compute_sparse_score_le (cfg : Config) (s r : Nat) :
    compute_sparse_score cfg s r ≤ 100 := by
  simp only [compute_sparse_score]
  split_ifs with h1 h2 <;> omega

/-- Closed form of `compute_sparse_score` on a bulk run. -/
theorem compute_sparse_score_bulk (cfg : Config) (s r : Nat)
    (h : cached_threshold_ns cfg ≤ r) :
    compute_sparse_score cfg s r = min (s - 6) 100 := by
  simp only [compute_sparse_score]
  have hd : decide (r < cached_threshold_ns cfg) = false := by
    simp only [decide_eq_false_iff_not]
    omega
  rw [hd]
  simp only [Bool.false_eq_true, if_false]
  split_ifs with h1 h2 <;> omega

/-- `compute_tier` lands in the seven tiers. -/
theorem compute_tier_le (s a : Nat) : compute_tier s a ≤ 6 := by
  unfold compute_tier
  split_ifs <;> omega

/-- A score below 30 classifies as Background regardless of run history. -/
theorem compute_tier_low (s a : Nat) (h : s < 30) : compute_tier s a = 6 := by
  unfold compute_tier
  rw [if_pos h]

/-- `compute_deficit` never exceeds the previous deficit. -/
theorem compute_deficit_le (d r : Nat) : compute_deficit d r ≤ d := by
  simp only [compute_deficit]
  split_ifs <;> omega

/-- Shape of `cake_running`: it writes only `packed_info`, `avg_runtime_us`,
`last_wake_ts` (always to 0) and `last_run_at` (always to `(u32)now`). -/
theorem cake_running_shape (cfg : Config) (ctx : cake_task_ctx) (stats : cake_stats)
    (now : Nat) :
    ∃ pk avg, (cake_running cfg ctx stats now).1 =
      { ctx with packed_info := pk, avg_runtime_us := avg,
                 last_wake_ts := 0, last_run_at := now % 2^32 } := by
  by_cases h : 0 < ctx.last_wake_ts
  · simp only [cake_running, if_pos h]
    exact ⟨_, _, rfl⟩
  · simp only [cake_running, if_neg h]
    exact ⟨ctx.packed_info, ctx.avg_runtime_us, rfl⟩

/-- Characterization of the AQM block of `cake_running` (lines 891-934) on the
packed word, in terms of the incremented counters `ch` and `vi`. -/
theorem cake_running_effect (cfg : Config) (ctx : cake_task_ctx) (stats : cake_stats)
    (now tier wd wt ch vi : Nat)
    (h32 : ctx.packed_info < 2^32) (hw : 0 < ctx.last_wake_ts)
    (htier : tier = GET_TIER ctx.packed_info)
    (hwd : wd = GET_WAIT_DATA ctx.packed_info)
    (hwt : wt = (now % 2^32 + 2^32 - ctx.last_wake_ts) % 2^32)
    (hch : ch = wd % 16 + 1)
    (hvi : vi = wd / 16 + (if 0 < (tier_configs (tier % 8)).wait_budget_ns ∧
        (tier_configs (tier % 8)).wait_budget_ns < wt then 1 else 0)) :
    GET_TIER (cake_running cfg ctx stats now).1.packed_info = tier ∧
    (cake_running cfg ctx stats now).1.packed_info < 2^32 ∧
    (10 ≤ ch ∧ tier < 6 →
      GET_WAIT_DATA (cake_running cfg ctx stats now).1.packed_info = 0 ∧
      (3 ≤ vi →
        GET_SPARSE_SCORE (cake_running cfg ctx stats now).1.packed_info =
          GET_SPARSE_SCORE ctx.packed_info - 10) ∧
      (vi < 3 →
        GET_SPARSE_SCORE (cake_running cfg ctx stats now).1.packed_info =
          GET_SPARSE_SCORE ctx.packed_info)) ∧
    (¬ (10 ≤ ch ∧ tier < 6) →
      GET_SPARSE_SCORE (cake_running cfg ctx stats now).1.packed_info =
        GET_SPARSE_SCORE ctx.packed_info ∧
      GET_WAIT_DATA (cake_running cfg ctx stats now).1.packed_info =
        min vi 15 * 16 + min ch 15) := by
  subst htier hwd hwt hch hvi
  simp only [cake_running]
  rw [if_pos hw]
  simp only [and_fifteen, shiftRight_four]
  have hpen : (if 10 < GET_SPARSE_SCORE ctx.packed_info then
      GET_SPARSE_SCORE ctx.packed_info - 10 else 0) = GET_SPARSE_SCORE ctx.packed_info - 10 := by
    split_ifs <;> omega
  simp only [hpen]
  set p := ctx.packed_info with hpdef
  set s := GET_SPARSE_SCORE p with hsdef
  set wd := GET_WAIT_DATA p with hwddef
  set tier := GET_TIER p with htdef
  set bcond := (0 < (tier_configs (tier % 8)).wait_budget_ns ∧
      (tier_configs (tier % 8)).wait_budget_ns <
        (now % 2^32 + 2^32 - ctx.last_wake_ts) % 2^32) with hbcond
  have hwdle : wd ≤ 255 := GET_WAIT_DATA_le p
  have hsle : s ≤ 127 := GET_SPARSE_SCORE_le p
  by_cases hmain : 10 ≤ wd % 16 + 1 ∧ tier < 6
  · simp only [if_pos hmain]
    by_cases hb : bcond
    · simp only [if_pos hb]
      by_cases hv3 : 3 ≤ wd / 16 + 1
      · simp only [if_pos hv3]
        have HD := aqm_demote_packed p (s - 10) h32 (by omega)
        exact ⟨HD.2.2.1, HD.2.2.2, fun _ => ⟨HD.2.1, fun _ => HD.1,
          fun hlt => absurd hlt (by omega)⟩, fun hc => absurd hmain hc⟩
      · simp only [if_neg hv3]
        have HR := aqm_reset_packed p h32
        exact ⟨HR.2.2.1, HR.2.2.2, fun _ => ⟨HR.2.1, fun hge => absurd hge hv3,
          fun _ => HR.1⟩, fun hc => absurd hmain hc⟩
    · simp only [if_neg hb]
      by_cases hv3 : 3 ≤ wd / 16
      · simp only [if_pos hv3]
        have HD := aqm_demote_packed p (s - 10) h32 (by omega)
        exact ⟨HD.2.2.1, HD.2.2.2, fun _ => ⟨HD.2.1, fun _ => HD.1,
          fun hlt => absurd hlt (by omega)⟩, fun hc => absurd hmain hc⟩
      · simp only [if_neg hv3]
        have HR := aqm_reset_packed p h32
        exact ⟨HR.2.2.1, HR.2.2.2, fun _ => ⟨HR.2.1, fun hge => absurd hge hv3,
          fun _ => HR.1⟩, fun hc => absurd hmain hc⟩
  · simp only [if_neg hmain]
    by_cases hb : bcond
    · simp only [if_pos hb]
      have hsat1 : (if 15 ≤ wd % 16 + 1 then 15 else wd % 16 + 1) = min (wd % 16 + 1) 15 := by
        split_ifs <;> omega
      have hsat2 : (if 15 ≤ wd / 16 + 1 then 15 else wd / 16 + 1) = min (wd / 16 + 1) 15 := by
        split_ifs <;> omega
      rw [hsat1, hsat2]
      have hor := or_nibbles (min (wd / 16 + 1) 15) (by omega) (min (wd % 16 + 1) 15) (by omega)
      rw [hor]
      have hnw : min (wd / 16 + 1) 15 * 16 + min (wd % 16 + 1) 15 ≤ 255 := by omega
      have HW := aqm_writeback_packed p (min (wd / 16 + 1) 15 * 16 + min (wd % 16 + 1) 15)
        h32 hnw
      exact ⟨HW.2.2.1, HW.2.2.2, fun hc => absurd hc hmain, fun _ => ⟨HW.1, HW.2.1⟩⟩
    · simp only [if_neg hb]
      have hsat1 : (if 15 ≤ wd % 16 + 1 then 15 else wd % 16 + 1) = min (wd % 16 + 1) 15 := by
        split_ifs <;> omega
      have hsat2 : (if 15 ≤ wd / 16 then 15 else wd / 16) = min (wd / 16) 15 := by
        split_ifs <;> omega
      rw [hsat1, hsat2]
      have hor := or_nibbles (min (wd / 16) 15) (by omega) (min (wd % 16 + 1) 15) (by omega)
      rw [hor]
      have hnw : min (wd / 16) 15 * 16 + min (wd % 16 + 1) 15 ≤ 255 := by omega
      have HW := aqm_writeback_packed p (min (wd / 16) 15 * 16 + min (wd % 16 + 1) 15)
        h32 hnw
      refine ⟨HW.2.2.1, HW.2.2.2, fun hc => absurd hc hmain, fun _ => ⟨HW.1, ?_⟩⟩
      rw [HW.2.1]
      omega

/-- Characterization of `cake_stopping` on a context with a run timestamp:
every written field in terms of the pure compute helpers, wait data and the
remaining fields untouched, and the statistics untouched when the score does
not cross `THRESHOLD_GAMING`. -/
theorem cake_stopping_effect (cfg : Config) (ctx : cake_task_ctx) (stats : cake_stats)
    (now rt : Nat) (h32 : ctx.packed_info < 2^32) (hrun : ¬ ctx.last_run_at = 0)
    (hrt : rt = (now % 2^32 + 2^32 - ctx.last_run_at) % 2^32) :
    GET_SPARSE_SCORE (cake_stopping cfg ctx stats now).1.packed_info =
      compute_sparse_score cfg (GET_SPARSE_SCORE ctx.packed_info) rt ∧
    GET_TIER (cake_stopping cfg ctx stats now).1.packed_info =
      compute_tier (compute_sparse_score cfg (GET_SPARSE_SCORE ctx.packed_info) rt)
        (compute_ema_runtime ctx.avg_runtime_us rt) ∧
    GET_WAIT_DATA (cake_stopping cfg ctx stats now).1.packed_info =
      GET_WAIT_DATA ctx.packed_info ∧
    (cake_stopping cfg ctx stats now).1.packed_info < 2^32 ∧
    (cake_stopping cfg ctx stats now).1.avg_runtime_us =
      compute_ema_runtime ctx.avg_runtime_us rt ∧
    (cake_stopping cfg ctx stats now).1.deficit_us = compute_deficit ctx.deficit_us rt ∧
    (cake_stopping cfg ctx stats now).1.next_slice =
      compute_slice cfg (compute_deficit ctx.deficit_us rt)
        (compute_tier (compute_sparse_score cfg (GET_SPARSE_SCORE ctx.packed_info) rt)
          (compute_ema_runtime ctx.avg_runtime_us rt)) ∧
    (cake_stopping cfg ctx stats now).1.last_run_at = ctx.last_run_at ∧
    (cake_stopping cfg ctx stats now).1.last_wake_ts = ctx.last_wake_ts ∧
    (cake_stopping cfg ctx stats now).1.target_dsq_id = ctx.target_dsq_id ∧
    (cake_stopping cfg ctx stats now).1.rng_state = ctx.rng_state ∧
    ((decide (70 ≤ GET_SPARSE_SCORE ctx.packed_info) =
        decide (70 ≤ compute_sparse_score cfg (GET_SPARSE_SCORE ctx.packed_info) rt)) →
      (cake_stopping cfg ctx stats now).2 = stats) := by
  subst hrt
  simp only [cake_stopping, if_neg hrun]
  have HS := stopping_writeback_packed ctx.packed_info
    (compute_sparse_score cfg (GET_SPARSE_SCORE ctx.packed_info)
      ((now % 2^32 + 2^32 - ctx.last_run_at) % 2^32))
    (compute_tier
      (compute_sparse_score cfg (GET_SPARSE_SCORE ctx.packed_info)
        ((now % 2^32 + 2^32 - ctx.last_run_at) % 2^32))
      (compute_ema_runtime ctx.avg_runtime_us ((now % 2^32 + 2^32 - ctx.last_run_at) % 2^32)))
    h32
    (le_trans (compute_sparse_score_le _ _ _) (by norm_num))
    (le_trans (compute_tier_le _ _) (by norm_num))
  refine ⟨HS.1, HS.2.1, HS.2.2.1, HS.2.2.2, by trivial, by trivial, by trivial, by trivial,
    by trivial, by trivial, by trivial, ?_⟩
  intro hsame
  by_cases he : cfg.enable_stats
  · simp only [if_pos he]
    rw [if_neg]
    intro hne
    exact hne hsame
  · simp only [if_neg he]

/-- Shape of `cake_select_cpu` on a task with a context: the returned context
is the input with `last_wake_ts` stamped to `(u32)now` and possibly a new
direct-dispatch target; no other field changes. -/
theorem cake_select_cpu_ctx (cfg : Config) (env : SelEnv) (t0 : cake_task_ctx)
    (prev_cpu : Int) (wake_sync : Bool) (now : Nat) (stats : cake_stats) :
    ∃ tgt, (cake_select_cpu cfg env (some t0) prev_cpu wake_sync now stats).tctx =
      some { t0 with last_wake_ts := now % 2^32, target_dsq_id := tgt } := by
  simp only [cake_select_cpu]
  by_cases h1 : wake_sync ∧ env.this_cpu < 64
  · simp only [if_pos h1]
    exact ⟨_, rfl⟩
  · simp only [if_neg h1]
    split
    · exact ⟨_, rfl⟩
    · split_ifs <;> exact ⟨_, rfl⟩

/-- Shape of `cake_enqueue` on a task with a context: the returned context is
the input with `target_dsq_id` cleared; no other field changes. -/
theorem cake_enqueue_ctx (cfg : Config) (t : cake_task_ctx) (f : EnqFlags)
    (stats : cake_stats) :
    (cake_enqueue cfg (some t) f stats).tctx = some { t with target_dsq_id := 0 } := by
  simp only [cake_enqueue]
  split_ifs <;> rfl

/-- Shape of `cake_tick`: only `rng_state` can change. -/
theorem cake_tick_ctx (cfg : Config) (t : cake_task_ctx) (stats : cake_stats) (now : Nat) :
    ∃ r, (cake_tick cfg t stats now).1 = { t with rng_state := r } := by
  simp only [cake_tick]
  split_ifs <;> exact ⟨_, rfl⟩

/-- C1: whenever the anti-starvation lottery coin is nonzero (prev is NULL, or
the low 4 bits of `prev->pid ^ prev->se.sum_exec_runtime` are nonzero) and the
CPU's mailbox DSQ yields no task, `cake_dispatch` polls the tier DSQs in
exactly the strict order 0, 1, 2, 3, 4, 5, 6, stopping at the first
successful pull; in particular a non-empty Critical-Latency DSQ (0) is always
served before any lower tier. -/
theorem C1_dispatch_strict_order (cpu : Nat) (prev : Option PrevTask) (pull : Nat → Bool)
    (hcoin : (match prev with
      | some p => p.pid ^^^ p.sum_exec_runtime
      | none => 1) &&& 0xF ≠ 0)
    (hmail : pull (1000 + cpu) = false) :
    cake_dispatch cpu prev pull = [0, 1, 2, 3, 4, 5, 6].find? pull ∧
    (pull 0 = true → cake_dispatch cpu prev pull = some 0) := by
  have hscan : dispatch_priority_scan pull = [0, 1, 2, 3, 4, 5, 6].find? pull := by
    simp only [dispatch_priority_scan, List.find?]
    cases h0 : pull 0 <;> cases h1 : pull 1 <;> cases h2 : pull 2 <;> cases h3 : pull 3 <;>
      cases h4 : pull 4 <;> cases h5 : pull 5 <;> cases h6 : pull 6 <;> simp
  have hd : cake_dispatch cpu prev pull = dispatch_priority_scan pull := by
    simp only [cake_dispatch]
    rw [if_neg (by simp [hmail]), if_neg hcoin]
  refine ⟨hd.trans hscan, fun h0 => ?_⟩
  rw [hd, dispatch_priority_scan, if_pos h0]

/-- Witness for C1 at a concrete instance: no previous task (coin 1), empty
mailbox, only the Critical DSQ (2) non-empty. -/
theorem C1_dispatch_strict_order_witness :
    ((match (none : Option PrevTask) with
      | some p => p.pid ^^^ p.sum_exec_runtime
      | none => 1) &&& 0xF ≠ 0) ∧
    ((fun d : Nat => decide (d = 2)) (1000 + 0) = false) ∧
    (cake_dispatch 0 none (fun d : Nat => decide (d = 2)) =
        [0, 1, 2, 3, 4, 5, 6].find? (fun d : Nat => decide (d = 2)) ∧
      ((fun d : Nat => decide (d = 2)) 0 = true →
        cake_dispatch 0 none (fun d : Nat => decide (d = 2)) = some 0)) :=
  ⟨by decide, by decide,
    C1_dispatch_strict_order 0 none (fun d : Nat => decide (d = 2)) (by decide) (by decide)⟩

/-- C2: `cake_enqueue` on a task whose context exists inserts into exactly one
DSQ: the saved mailbox `target_dsq_id` when the WAKEUP flag is set and the
target is nonzero, otherwise Background (6) when neither WAKEUP nor PREEMPT is
set, otherwise the DSQ of the task's current tier; and `target_dsq_id` is
cleared to 0 on every such invocation, whichever branch is taken. -/
theorem C2_enqueue_routing (cfg : Config) (t : cake_task_ctx) (flags : EnqFlags)
    (stats : cake_stats) :
    (cake_enqueue cfg (some t) flags stats).dsq_id =
      (if flags.wakeup ∧ t.target_dsq_id ≠ 0 then t.target_dsq_id
       else if ¬ flags.wakeup ∧ ¬ flags.preempt then 6
       else GET_TIER t.packed_info) ∧
    (cake_enqueue cfg (some t) flags stats).tctx = some { t with target_dsq_id := 0 } := by
  refine ⟨?_, cake_enqueue_ctx cfg t flags stats⟩
  simp only [cake_enqueue]
  split_ifs <;> rfl

/-- C3: the classifier's score-to-tier map, for every score in [0, 100] and
every average runtime: Background below 30, Batch below 50, Interactive below
70, Gaming below 90, Critical below 100; and at score 100 the latency gates:
Critical-Latency below 50 us of history, Realtime below 500 us, Critical
otherwise (including no history at all). -/
theorem C3_compute_tier_map (score avg_us : Nat) (hs : score ≤ 100) :
    (score < 30 → compute_tier score avg_us = 6) ∧
    (30 ≤ score → score < 50 → compute_tier score avg_us = 5) ∧
    (50 ≤ score → score < 70 → compute_tier score avg_us = 4) ∧
    (70 ≤ score → score < 90 → compute_tier score avg_us = 3) ∧
    (90 ≤ score → score < 100 → compute_tier score avg_us = 2) ∧
    (score = 100 → 0 < avg_us → avg_us < 50 → compute_tier score avg_us = 0) ∧
    (score = 100 → 50 ≤ avg_us → avg_us < 500 → compute_tier score avg_us = 1) ∧
    (score = 100 → 500 ≤ avg_us → compute_tier score avg_us = 2) ∧
    (score = 100 → avg_us = 0 → compute_tier score avg_us = 2) := by
  unfold compute_tier
  refine ⟨?_, ?_, ?_, ?_, ?_, ?_, ?_, ?_, ?_⟩ <;> (intros; split_ifs <;> omega)

/-- Witness for C3 at score 100 with a 30 us average: Critical-Latency. -/
theorem C3_compute_tier_map_witness :
    (100 : Nat) ≤ 100 ∧ ((100 : Nat) = 100 → 0 < (30 : Nat) → (30 : Nat) < 50 →
      compute_tier 100 30 = 0) :=
  ⟨by decide, (C3_compute_tier_map 100 30 (by decide)).2.2.2.2.2.1⟩

/-- C5 counterexample: with quantum 4 ms, bonus 8 ms and threshold
100 permille, a fresh context (score 50, tier Interactive, deficit 11718)
stopped after a run of exactly 50 000 ns does NOT land on the claimed
post-state (score 54, avg 48, deficit 11669, tier Interactive, next slice
4 398 437 ns): the code computes `runtime_us = 50000 >> 10 = 48`, so the
deficit is 11718 - 48 = 11670, and the slice is built from
`max(11670 << 10, 4 000 000) = 11 950 080`, not from the bare quantum. -/
theorem C5_scenario_counterexample :
    ¬ (GET_SPARSE_SCORE c5_ctx2.packed_info = 54 ∧ c5_ctx2.avg_runtime_us = 48 ∧
       c5_ctx2.deficit_us = 11669 ∧ GET_TIER c5_ctx2.packed_info = 4 ∧
       c5_ctx2.next_slice = 4398437) := by
  decide

/-- C5 amended: the same single `cake_stopping` after a 50 000 ns run yields
score 54, average runtime 48 us, deficit 11670 us, tier Interactive, and
next slice 13 140 420 ns (11670 << 10 = 11 950 080 ns of deficit credit times
the Interactive multiplier 1126, shifted right by 10). -/
theorem C5_scenario_amended :
    GET_SPARSE_SCORE c5_ctx0.packed_info = 50 ∧ GET_TIER c5_ctx0.packed_info = 4 ∧
    c5_ctx0.deficit_us = 11718 ∧ c5_ctx0.avg_runtime_us = 0 ∧
    GET_SPARSE_SCORE c5_ctx2.packed_info = 54 ∧ c5_ctx2.avg_runtime_us = 48 ∧
    c5_ctx2.deficit_us = 11670 ∧ GET_TIER c5_ctx2.packed_info = 4 ∧
    c5_ctx2.next_slice = 13140420 := by
  decide

/-- C6 counterexample: a task with sparse score 90 after one bulk run of
5 000 000 ns gets score 84 and tier Gaming, but `nr_sparse_demotions` is NOT
incremented: the statistics only move when the score crosses
`THRESHOLD_GAMING` (70), and 90 -> 84 stays above it. -/
theorem C6_bulk_demotion_counterexample :
    cached_threshold_ns c6Config < 5000000 ∧
    GET_SPARSE_SCORE c6_ctx0.packed_info = 90 ∧
    c6Config.enable_stats = true ∧
    ¬ (GET_SPARSE_SCORE (c6_res.1).packed_info = 84 ∧
       GET_TIER (c6_res.1).packed_info = 3 ∧
       (c6_res.2).nr_sparse_demotions = emptyStats.nr_sparse_demotions + 1) := by
  decide

/-- C6 amended: for every configuration and every context with sparse score
90, a single `cake_stopping` whose run length reaches `cached_threshold_ns`
yields score 84 and tier Gaming, and leaves `nr_sparse_demotions` (indeed the
whole statistics record) unchanged, because 90 -> 84 does not cross
`THRESHOLD_GAMING`. -/
theorem C6_bulk_demotion_amended (cfg : Config) (ctx : cake_task_ctx) (stats : cake_stats)
    (now rt : Nat) (h32 : ctx.packed_info < 2^32)
    (hscore : GET_SPARSE_SCORE ctx.packed_info = 90)
    (hrun : ¬ ctx.last_run_at = 0)
    (hrt : rt = (now % 2^32 + 2^32 - ctx.last_run_at) % 2^32)
    (hbulk : cached_threshold_ns cfg ≤ rt) :
    GET_SPARSE_SCORE (cake_stopping cfg ctx stats now).1.packed_info = 84 ∧
    GET_TIER (cake_stopping cfg ctx stats now).1.packed_info = 3 ∧
    (cake_stopping cfg ctx stats now).2 = stats := by
  have HS := cake_stopping_effect cfg ctx stats now rt h32 hrun hrt
  have hs84 : compute_sparse_score cfg (GET_SPARSE_SCORE ctx.packed_info) rt = 84 := by
    rw [compute_sparse_score_bulk cfg _ rt hbulk, hscore]
    decide
  have ht3 : compute_tier 84 (compute_ema_runtime ctx.avg_runtime_us rt) = 3 := by
    unfold compute_tier
    split_ifs <;> omega
  refine ⟨?_, ?_, ?_⟩
  · rw [HS.1, hs84]
  · rw [HS.2.1, hs84]
    exact ht3
  · apply HS.2.2.2.2.2.2.2.2.2.2.2
    rw [hs84, hscore]
    decide

/-- Witness for the amended C6 at the concrete scenario context. -/
theorem C6_bulk_demotion_amended_witness :
    (c6_ctx0.packed_info < 2^32 ∧ GET_SPARSE_SCORE c6_ctx0.packed_info = 90 ∧
     ¬ c6_ctx0.last_run_at = 0 ∧
     (5000000 : Nat) = (5001000 % 2^32 + 2^32 - c6_ctx0.last_run_at) % 2^32 ∧
     cached_threshold_ns c6Config ≤ 5000000) ∧
    (GET_SPARSE_SCORE (cake_stopping c6Config c6_ctx0 emptyStats 5001000).1.packed_info = 84 ∧
     GET_TIER (cake_stopping c6Config c6_ctx0 emptyStats 5001000).1.packed_info = 3 ∧
     (cake_stopping c6Config c6_ctx0 emptyStats 5001000).2 = emptyStats) :=
  ⟨⟨by decide, by decide, by decide, by decide, by decide⟩,
    C6_bulk_demotion_amended c6Config c6_ctx0 emptyStats 5001000 5000000
      (by decide) (by decide) (by decide) (by decide) (by decide)⟩

/-- C8: the claimed invariant (idle-mask bit i tracks the most recent
`update_idle(i, _)`, with init's pre-warming as the initial state) FAILS on
the code: init pre-warms `idle_mask` but leaves every per-CPU shadow false,
so the first `update_idle(i, false)` of a pre-warmed CPU matches the stale
shadow and returns without clearing the global bit.  Concretely: one CPU,
idle at init, then `update_idle(0, false)` - the last update says not idle,
yet bit 0 remains set. -/
theorem C8_idle_mask_code_bug :
    (cake_init_masks 1 (fun i => decide (i = 0))).idle_mask.testBit 0 = true ∧
    lastIdleUpdate [((0 : Int), false)] 0 = some false ∧
    c8_state.idle_mask.testBit 0 = true := by
  decide

/-- C9 counterexample: `cake_select_cpu` invoked with a pending wake
(`last_wake_ts = 5`) at a clock value whose low 32 bits are zero writes
`last_wake_ts = (u32)now = 0`, i.e. a nonzero -> 0 transition of
`last_wake_ts` inside `select_cpu`, contradicting the claim that such
transitions occur only inside `running`. -/
theorem C9_wake_transition_counterexample :
    c9_ctx0.last_wake_ts ≠ 0 ∧ c9_sel.tctx.isSome = true ∧
    (c9_sel.tctx.getD c9_ctx0).last_wake_ts = 0 := by
  decide

/-- C9 amended: provided every `select_cpu` invocation happens at a clock
value with nonzero low 32 bits, the transition of `last_wake_ts` from 0 to
nonzero occurs only inside `select_cpu` (which always stamps `(u32)now`), the
transition from nonzero to 0 occurs only inside `running` (which always
clears it), and `enqueue`, `stopping` and `tick` never change `last_wake_ts`.
Without that proviso, `select_cpu` itself can write 0 (see the
counterexample). -/
theorem C9_wake_transition_amended (cfg : Config) (env : SelEnv) (stats : cake_stats) :
    (∀ (t0 : cake_task_ctx) (prev_cpu : Int) (sync : Bool) (now : Nat), now % 2^32 ≠ 0 →
      ∃ t2, (cake_select_cpu cfg env (some t0) prev_cpu sync now stats).tctx = some t2 ∧
        t2.last_wake_ts ≠ 0) ∧
    (∀ (ctx : cake_task_ctx) (now : Nat),
      (cake_running cfg ctx stats now).1.last_wake_ts = 0) ∧
    (∀ (t : cake_task_ctx) (flags : EnqFlags),
      ∃ t2, (cake_enqueue cfg (some t) flags stats).tctx = some t2 ∧
        t2.last_wake_ts = t.last_wake_ts) ∧
    (∀ (ctx : cake_task_ctx) (now : Nat),
      (cake_stopping cfg ctx stats now).1.last_wake_ts = ctx.last_wake_ts) ∧
    (∀ (ctx : cake_task_ctx) (now : Nat),
      (cake_tick cfg ctx stats now).1.last_wake_ts = ctx.last_wake_ts) := by
  refine ⟨?_, ?_, ?_, ?_, ?_⟩
  · intro t0 prev_cpu sync now hnow
    obtain ⟨tgt, h⟩ := cake_select_cpu_ctx cfg env t0 prev_cpu sync now stats
    exact ⟨_, h, hnow⟩
  · intro ctx now
    obtain ⟨pk, avg, h⟩ := cake_running_shape cfg ctx stats now
    rw [h]
  · intro t flags
    exact ⟨_, cake_enqueue_ctx cfg t flags stats, rfl⟩
  · intro ctx now
    by_cases h : ctx.last_run_at = 0
    · simp [cake_stopping, h]
    · simp only [cake_stopping, if_neg h]
  · intro ctx now
    obtain ⟨r, h⟩ := cake_tick_ctx cfg ctx stats now
    rw [h]

/-- Witness for the amended C9: a concrete `select_cpu` at clock 3. -/
theorem C9_wake_transition_amended_witness :
    (3 : Nat) % 2^32 ≠ 0 ∧
    (∃ t2, (cake_select_cpu defaultConfig plainEnv (some c9_ctx0) 0 false 3
        emptyStats).tctx = some t2 ∧ t2.last_wake_ts ≠ 0) :=
  ⟨by decide,
    (C9_wake_transition_amended defaultConfig plainEnv emptyStats).1 c9_ctx0 0 false 3
      (by decide)⟩

theorem u32_delta (a r : Nat) : ((a + r) % 2^32 + 2^32 - a % 2^32) % 2^32 = r % 2^32 := by
  omega

theorem tier_budget_le (t : Nat) : (tier_configs t).wait_budget_ns ≤ 20000000 := by
  unfold tier_configs
  rcases t with _ | _ | _ | _ | _ | _ | _ | t <;> simp

theorem tier_multiplier_le (t : Nat) : (tier_configs t).multiplier ≤ 1331 := by
  unfold tier_configs
  rcases t with _ | _ | _ | _ | _ | _ | _ | t <;> simp

/-- `cake_running` never raises the sparse score (the AQM only penalizes). -/
theorem cake_running_score_le (cfg : Config) (ctx : cake_task_ctx) (stats : cake_stats)
    (now : Nat) (h32 : ctx.packed_info < 2^32) :
    GET_SPARSE_SCORE (cake_running cfg ctx stats now).1.packed_info ≤
      GET_SPARSE_SCORE ctx.packed_info ∧
    (cake_running cfg ctx stats now).1.packed_info < 2^32 := by
  by_cases hw : 0 < ctx.last_wake_ts
  · have HE := cake_running_effect cfg ctx stats now (GET_TIER ctx.packed_info)
      (GET_WAIT_DATA ctx.packed_info) ((now % 2^32 + 2^32 - ctx.last_wake_ts) % 2^32)
      (GET_WAIT_DATA ctx.packed_info % 16 + 1)
      (GET_WAIT_DATA ctx.packed_info / 16 +
        (if 0 < (tier_configs (GET_TIER ctx.packed_info % 8)).wait_budget_ns ∧
            (tier_configs (GET_TIER ctx.packed_info % 8)).wait_budget_ns <
              (now % 2^32 + 2^32 - ctx.last_wake_ts) % 2^32 then 1 else 0))
      h32 hw rfl rfl rfl rfl rfl
    refine ⟨?_, HE.2.1⟩
    by_cases hmain : 10 ≤ GET_WAIT_DATA ctx.packed_info % 16 + 1 ∧
        GET_TIER ctx.packed_info < 6
    · have h2 := HE.2.2.1 hmain
      by_cases hv3 : 3 ≤ GET_WAIT_DATA ctx.packed_info / 16 +
          (if 0 < (tier_configs (GET_TIER ctx.packed_info % 8)).wait_budget_ns ∧
              (tier_configs (GET_TIER ctx.packed_info % 8)).wait_budget_ns <
                (now % 2^32 + 2^32 - ctx.last_wake_ts) % 2^32 then 1 else 0)
      · rw [h2.2.1 hv3]
        omega
      · rw [h2.2.2 (by omega)]
    · rw [(HE.2.2.2 hmain).1]
  · simp only [cake_running, if_neg hw]
    exact ⟨le_refl _, h32⟩

/-- One bulk wake-run-stop cycle keeps the packed word well formed, caps the
score at 100, lowers it by at least 6 (when it was at most 106), and lands in
Background whenever the resulting score is below 30. -/
theorem cycle_score_drop (cfg : Config) (env : SelEnv) (prev_cpu : Int)
    (tw wt rt : Nat) (p : cake_task_ctx × cake_stats)
    (h32 : p.1.packed_info < 2^32)
    (hrun : ¬ (tw + wt) % 2^32 = 0)
    (hlt : rt < 2^32) (hbulk : cached_threshold_ns cfg ≤ rt) :
    (wake_run_stop_cycle cfg env prev_cpu tw wt rt p).1.packed_info < 2^32 ∧
    GET_SPARSE_SCORE (wake_run_stop_cycle cfg env prev_cpu tw wt rt p).1.packed_info ≤ 100 ∧
    (GET_SPARSE_SCORE p.1.packed_info ≤ 106 →
      GET_SPARSE_SCORE (wake_run_stop_cycle cfg env prev_cpu tw wt rt p).1.packed_info ≤
        GET_SPARSE_SCORE p.1.packed_info - 6) ∧
    (GET_SPARSE_SCORE (wake_run_stop_cycle cfg env prev_cpu tw wt rt p).1.packed_info < 30 →
      GET_TIER (wake_run_stop_cycle cfg env prev_cpu tw wt rt p).1.packed_info = 6) := by
  obtain ⟨tgt, hsel⟩ := cake_select_cpu_ctx cfg env p.1 prev_cpu false tw p.2
  simp only [wake_run_stop_cycle, hsel, Option.getD_some]
  set t1 : cake_task_ctx :=
    { p.1 with last_wake_ts := tw % 2^32, target_dsq_id := tgt } with ht1
  set st1 := (cake_select_cpu cfg env (some p.1) prev_cpu false tw p.2).stats with hst1
  have h32a : t1.packed_info < 2^32 := h32
  have HR := cake_running_score_le cfg t1 st1 (tw + wt) h32a
  obtain ⟨pk, avg, hsh⟩ := cake_running_shape cfg t1 st1 (tw + wt)
  set r := cake_running cfg t1 st1 (tw + wt) with hrdef
  have hrrun : r.1.last_run_at = (tw + wt) % 2^32 := by rw [hsh]
  have hrunne : ¬ r.1.last_run_at = 0 := by rw [hrrun]; exact hrun
  have hrteq : rt = ((tw + wt + rt) % 2^32 + 2^32 - r.1.last_run_at) % 2^32 := by
    rw [hrrun, u32_delta]
    omega
  have HS := cake_stopping_effect cfg r.1 r.2 (tw + wt + rt) rt HR.2 hrunne hrteq
  have hsle : GET_SPARSE_SCORE r.1.packed_info ≤ GET_SPARSE_SCORE p.1.packed_info := HR.1
  have hscore : GET_SPARSE_SCORE (cake_stopping cfg r.1 r.2 (tw + wt + rt)).1.packed_info =
      min (GET_SPARSE_SCORE r.1.packed_info - 6) 100 := by
    rw [HS.1, compute_sparse_score_bulk cfg _ rt hbulk]
  refine ⟨HS.2.2.2.1, ?_, ?_, ?_⟩
  · rw [hscore]; omega
  · intro h106
    rw [hscore]; omega
  · intro h30
    rw [hscore] at h30
    rw [HS.2.1, compute_sparse_score_bulk cfg _ rt hbulk]
    exact compute_tier_low _ _ (by omega)

/-- C7 counterexample: in the trajectory `c7_traj` every cycle's wake-to-run
wait is 50 ms, which exceeds the wait budget of the task's current tier at
every one of the first 100 cycles (the largest budget in the table is the
20 ms Batch budget, and Background has none), yet the tier never reaches
Background (6) within 100 cycles: each 50 us run is sparse, so `stopping`
adds +4 per cycle while the AQM subtracts only 10 per 10 cycles, and the
score climbs instead of falling. -/
theorem C7_demotion_liveness_counterexample :
    ((List.range 100).all fun n =>
      decide ((tier_configs (GET_TIER (c7_traj n).1.packed_info % 8)).wait_budget_ns <
        50000000)) = true ∧
    ((List.range 101).all fun n =>
      decide (GET_TIER (c7_traj n).1.packed_info ≠ 6)) = true := by
  constructor
  · rfl
  · rfl

/-- C7 amended: the demotion-liveness claim holds once every run is also a
bulk run (its length reaches `cached_threshold_ns`): for every starting
context, every wake/wait/run schedule whose waits exceed the current tier's
budget and whose run lengths are bulk, the tier reaches Background (6)
within at most 100 cycles (18 already suffice). -/
theorem C7_demotion_liveness_amended (cfg : Config) (env : SelEnv) (prev_cpu : Int)
    (t_wake wait runtime : Nat → Nat) (ctx0 : cake_task_ctx) (stats0 : cake_stats)
    (h32 : ctx0.packed_info < 2^32)
    (hrun0 : ∀ k, ¬ (t_wake k + wait k) % 2^32 = 0)
    (hrtlt : ∀ k, runtime k < 2^32)
    (hwaitbudget : ∀ k, (tier_configs (GET_TIER
        (cake_trajectory cfg env prev_cpu t_wake wait runtime (ctx0, stats0) k).1.packed_info
          % 8)).wait_budget_ns < wait k)
    (hbulk : ∀ k, cached_threshold_ns cfg ≤ runtime k) :
    ∃ n ≤ 100, GET_TIER
      (cake_trajectory cfg env prev_cpu t_wake wait runtime (ctx0, stats0) n).1.packed_info
        = 6 := by
  have key : ∀ n,
      (cake_trajectory cfg env prev_cpu t_wake wait runtime (ctx0, stats0) n).1.packed_info
          < 2^32 ∧
      (1 ≤ n → GET_SPARSE_SCORE
        (cake_trajectory cfg env prev_cpu t_wake wait runtime (ctx0, stats0) n).1.packed_info
          ≤ 100) := by
    intro n
    induction n with
    | zero => exact ⟨h32, by omega⟩
    | succ k ih =>
      have hc := cycle_score_drop cfg env prev_cpu (t_wake k) (wait k) (runtime k)
        (cake_trajectory cfg env prev_cpu t_wake wait runtime (ctx0, stats0) k)
        ih.1 (hrun0 k) (hrtlt k) (hbulk k)
      exact ⟨hc.1, fun _ => hc.2.1⟩
  have hdrop : ∀ k, 1 ≤ k → GET_SPARSE_SCORE
      (cake_trajectory cfg env prev_cpu t_wake wait runtime (ctx0, stats0) (k+1)).1.packed_info
        ≤ GET_SPARSE_SCORE
      (cake_trajectory cfg env prev_cpu t_wake wait runtime (ctx0, stats0) k).1.packed_info
        - 6 := by
    intro k hk
    have hc := cycle_score_drop cfg env prev_cpu (t_wake k) (wait k) (runtime k)
      (cake_trajectory cfg env prev_cpu t_wake wait runtime (ctx0, stats0) k)
      (key k).1 (hrun0 k) (hrtlt k) (hbulk k)
    exact hc.2.2.1 (le_trans ((key k).2 hk) (by omega))
  have hbound : ∀ k, GET_SPARSE_SCORE
      (cake_trajectory cfg env prev_cpu t_wake wait runtime (ctx0, stats0) (k+1)).1.packed_info
        ≤ 100 - 6 * k := by
    intro k
    induction k with
    | zero => simpa using (key 1).2 (by omega)
    | succ j ih =>
      have hstep := hdrop (j+1) (by omega)
      omega
  have hT18 : cake_trajectory cfg env prev_cpu t_wake wait runtime (ctx0, stats0) 18
      = wake_run_stop_cycle cfg env prev_cpu (t_wake 17) (wait 17) (runtime 17)
          (cake_trajectory cfg env prev_cpu t_wake wait runtime (ctx0, stats0) 17) := rfl
  have hc := cycle_score_drop cfg env prev_cpu (t_wake 17) (wait 17) (runtime 17)
    (cake_trajectory cfg env prev_cpu t_wake wait runtime (ctx0, stats0) 17)
    (key 17).1 (hrun0 17) (hrtlt 17) (hbulk 17)
  have hb := hbound 17
  rw [show (17 : Nat) + 1 = 18 from rfl, hT18] at hb
  refine ⟨18, by omega, ?_⟩
  rw [hT18]
  exact hc.2.2.2 (by omega)

/-- Witness for the amended C7: fresh task, constant schedule with 50 ms
waits (above every tier budget) and 5 ms bulk runs. -/
theorem C7_demotion_liveness_amended_witness :
    ((alloc_task_ctx defaultConfig).packed_info < 2^32 ∧
     (∀ _ : Nat, ¬ ((1 : Nat) + 50000000) % 2^32 = 0) ∧
     (∀ _ : Nat, (5000000 : Nat) < 2^32) ∧
     (∀ k : Nat, (tier_configs (GET_TIER
         (cake_trajectory defaultConfig plainEnv 0 (fun _ => 1) (fun _ => 50000000)
           (fun _ => 5000000) (alloc_task_ctx defaultConfig, emptyStats) k).1.packed_info
             % 8)).wait_budget_ns < 50000000) ∧
     (∀ _ : Nat, cached_threshold_ns defaultConfig ≤ 5000000)) ∧
    (∃ n ≤ 100, GET_TIER
      (cake_trajectory defaultConfig plainEnv 0 (fun _ => 1) (fun _ => 50000000)
        (fun _ => 5000000) (alloc_task_ctx defaultConfig, emptyStats) n).1.packed_info
          = 6) :=
  ⟨⟨by decide, fun _ => by decide, fun _ => by decide,
    fun k => lt_of_le_of_lt (tier_budget_le _) (by norm_num),
    fun _ => by decide⟩,
   C7_demotion_liveness_amended defaultConfig plainEnv 0 (fun _ => 1) (fun _ => 50000000)
     (fun _ => 5000000) (alloc_task_ctx defaultConfig) emptyStats (by decide)
     (fun k => (by decide : ¬ ((1 : Nat) + 50000000) % 2^32 = 0))
     (fun k => (by decide : (5000000 : Nat) < 2^32))
     (fun k => lt_of_le_of_lt (tier_budget_le _) (by norm_num))
     (fun k => (by decide : cached_threshold_ns defaultConfig ≤ 5000000))⟩

/-- C4: on every `cake_running` with a pending wake, with
`checks' = checks + 1` and `violations'` incremented exactly when the tier's
wait budget is nonzero and the measured wait exceeds it: if `checks' >= 10`
and the tier is above Background, then a window with `violations' >= 3`
reduces the sparse score by 10 (clamped at 0, which is truncated `Nat`
subtraction) and resets the wait data, and a window with fewer violations
resets the wait data leaving the score unchanged; otherwise the incremented
counters are written back, each saturated at 15.  Moreover this AQM block is
the only writer of the sparse score outside `cake_stopping`: `select_cpu`,
`enqueue` and `tick` preserve it, as does `running` itself without a pending
wake. -/
theorem C4_aqm_update (cfg : Config) (ctx : cake_task_ctx) (stats : cake_stats)
    (now tier wd wt ch vi : Nat)
    (h32 : ctx.packed_info < 2^32) (hw : 0 < ctx.last_wake_ts)
    (htier : tier = GET_TIER ctx.packed_info)
    (hwd : wd = GET_WAIT_DATA ctx.packed_info)
    (hwt : wt = (now % 2^32 + 2^32 - ctx.last_wake_ts) % 2^32)
    (hch : ch = wd % 16 + 1)
    (hvi : vi = wd / 16 + (if 0 < (tier_configs (tier % 8)).wait_budget_ns ∧
        (tier_configs (tier % 8)).wait_budget_ns < wt then 1 else 0)) :
    (10 ≤ ch ∧ tier < 6 →
      GET_WAIT_DATA (cake_running cfg ctx stats now).1.packed_info = 0 ∧
      (3 ≤ vi →
        GET_SPARSE_SCORE (cake_running cfg ctx stats now).1.packed_info =
          GET_SPARSE_SCORE ctx.packed_info - 10) ∧
      (vi < 3 →
        GET_SPARSE_SCORE (cake_running cfg ctx stats now).1.packed_info =
          GET_SPARSE_SCORE ctx.packed_info)) ∧
    (¬ (10 ≤ ch ∧ tier < 6) →
      GET_SPARSE_SCORE (cake_running cfg ctx stats now).1.packed_info =
        GET_SPARSE_SCORE ctx.packed_info ∧
      GET_WAIT_DATA (cake_running cfg ctx stats now).1.packed_info =
        min vi 15 * 16 + min ch 15) ∧
    (∀ (env : SelEnv) (t0 : cake_task_ctx) (prev_cpu : Int) (sync : Bool)
        (now2 : Nat) (st : cake_stats),
      ∃ t2, (cake_select_cpu cfg env (some t0) prev_cpu sync now2 st).tctx = some t2 ∧
        GET_SPARSE_SCORE t2.packed_info = GET_SPARSE_SCORE t0.packed_info) ∧
    (∀ (t : cake_task_ctx) (flags : EnqFlags) (st : cake_stats),
      ∃ t2, (cake_enqueue cfg (some t) flags st).tctx = some t2 ∧
        GET_SPARSE_SCORE t2.packed_info = GET_SPARSE_SCORE t.packed_info) ∧
    (∀ (t : cake_task_ctx) (st : cake_stats) (now2 : Nat),
      GET_SPARSE_SCORE (cake_tick cfg t st now2).1.packed_info =
        GET_SPARSE_SCORE t.packed_info) ∧
    (∀ (t : cake_task_ctx) (st : cake_stats) (now2 : Nat), t.last_wake_ts = 0 →
      GET_SPARSE_SCORE (cake_running cfg t st now2).1.packed_info =
        GET_SPARSE_SCORE t.packed_info) := by
  have HE := cake_running_effect cfg ctx stats now tier wd wt ch vi h32 hw htier hwd hwt
    hch hvi
  refine ⟨HE.2.2.1, HE.2.2.2, ?_, ?_, ?_, ?_⟩
  · intro env t0 prev_cpu sync now2 st
    obtain ⟨tgt, h⟩ := cake_select_cpu_ctx cfg env t0 prev_cpu sync now2 st
    exact ⟨_, h, rfl⟩
  · intro t flags st
    exact ⟨_, cake_enqueue_ctx cfg t flags st, rfl⟩
  · intro t st now2
    obtain ⟨r, h⟩ := cake_tick_ctx cfg t st now2
    rw [h]
  · intro t st now2 h0
    simp only [cake_running, if_neg (by omega : ¬ 0 < t.last_wake_ts)]

/-- Witness for C4 on the concrete context `c4_ctx`: checks reach 10 with 3
violations, so the score drops from 80 to 70 and the wait data resets. -/
theorem C4_aqm_update_witness :
    (c4_ctx.packed_info < 2^32 ∧ 0 < c4_ctx.last_wake_ts ∧
     (3 : Nat) = GET_TIER c4_ctx.packed_info ∧
     (57 : Nat) = GET_WAIT_DATA c4_ctx.packed_info ∧
     (1000 : Nat) = (2000 % 2^32 + 2^32 - c4_ctx.last_wake_ts) % 2^32 ∧
     (10 : Nat) = 57 % 16 + 1 ∧
     (3 : Nat) = 57 / 16 + (if 0 < (tier_configs (3 % 8)).wait_budget_ns ∧
        (tier_configs (3 % 8)).wait_budget_ns < 1000 then 1 else 0)) ∧
    ((10 : Nat) ≤ 10 ∧ (3 : Nat) < 6 →
      GET_WAIT_DATA (cake_running defaultConfig c4_ctx emptyStats 2000).1.packed_info = 0 ∧
      ((3 : Nat) ≤ 3 →
        GET_SPARSE_SCORE (cake_running defaultConfig c4_ctx emptyStats 2000).1.packed_info =
          GET_SPARSE_SCORE c4_ctx.packed_info - 10) ∧
      ((3 : Nat) < 3 →
        GET_SPARSE_SCORE (cake_running defaultConfig c4_ctx emptyStats 2000).1.packed_info =
          GET_SPARSE_SCORE c4_ctx.packed_info)) :=
  ⟨⟨by decide, by decide, by decide, by decide, by decide, by decide, by decide⟩,
   (C4_aqm_update defaultConfig c4_ctx emptyStats 2000 3 57 1000 10 3
     (by decide) (by decide) (by decide) (by decide) (by decide) (by decide)
     (by decide)).1⟩

/-- C10: the DRR++ deficit is monotonically non-increasing after creation.
It starts at `(quantum_ns + new_flow_bonus_ns) >> 10` (given that this fits
the u16 field), the only writer (`cake_stopping` via `compute_deficit`) never
increases it, no other handler touches it, and once it reaches 0 it stays 0,
after which every freshly computed `next_slice` equals
`quantum_ns * multiplier[tier] >> 10` for the task's new tier. -/
theorem C10_deficit_monotone (cfg : Config)
    (hsum : cfg.quantum_ns + cfg.new_flow_bonus_ns < 2^64)
    (hfit : (cfg.quantum_ns + cfg.new_flow_bonus_ns) >>> 10 < 2^16)
    (hq : cfg.quantum_ns < 2^52) :
    (alloc_task_ctx cfg).deficit_us = (cfg.quantum_ns + cfg.new_flow_bonus_ns) >>> 10 ∧
    (∀ (ctx : cake_task_ctx) (stats : cake_stats) (now : Nat),
      (cake_stopping cfg ctx stats now).1.deficit_us ≤ ctx.deficit_us) ∧
    (∀ (env : SelEnv) (t0 : cake_task_ctx) (prev_cpu : Int) (sync : Bool)
        (now : Nat) (st : cake_stats),
      ∃ t2, (cake_select_cpu cfg env (some t0) prev_cpu sync now st).tctx = some t2 ∧
        t2.deficit_us = t0.deficit_us) ∧
    (∀ (t : cake_task_ctx) (flags : EnqFlags) (st : cake_stats),
      ∃ t2, (cake_enqueue cfg (some t) flags st).tctx = some t2 ∧
        t2.deficit_us = t.deficit_us) ∧
    (∀ (ctx : cake_task_ctx) (stats : cake_stats) (now : Nat),
      (cake_running cfg ctx stats now).1.deficit_us = ctx.deficit_us) ∧
    (∀ (ctx : cake_task_ctx) (stats : cake_stats) (now : Nat),
      (cake_tick cfg ctx stats now).1.deficit_us = ctx.deficit_us) ∧
    (∀ (ctx : cake_task_ctx) (stats : cake_stats) (now : Nat),
      ctx.deficit_us = 0 → ¬ ctx.last_run_at = 0 → ctx.packed_info < 2^32 →
      (cake_stopping cfg ctx stats now).1.deficit_us = 0 ∧
      (cake_stopping cfg ctx stats now).1.next_slice =
        (cfg.quantum_ns * (tier_configs
          (GET_TIER (cake_stopping cfg ctx stats now).1.packed_info % 8)).multiplier)
            >>> 10) := by
  have hslice0 : ∀ t : Nat, compute_slice cfg 0 t =
      (cfg.quantum_ns * (tier_configs (t % 8)).multiplier) >>> 10 := by
    intro t
    simp only [compute_slice]
    have hz : ¬ ((0 : Nat) <<< 10 > cfg.quantum_ns) := by
      simp [Nat.shiftLeft_eq]
    rw [if_neg hz]
    have hmul : cfg.quantum_ns * (tier_configs (t % 8)).multiplier < 2^64 := by
      calc cfg.quantum_ns * (tier_configs (t % 8)).multiplier
          ≤ cfg.quantum_ns * 1331 := Nat.mul_le_mul_left _ (tier_multiplier_le _)
        _ < 2^52 * 1331 := by
            have := Nat.mul_lt_mul_of_lt_of_le hq (le_refl 1331) (by norm_num)
            exact this
        _ < 2^64 := by norm_num
    rw [Nat.mod_eq_of_lt hmul]
  have hdef0 : ∀ r : Nat, compute_deficit 0 r = 0 := by
    intro r
    simp only [compute_deficit]
    split_ifs <;> omega
  refine ⟨?_, ?_, ?_, ?_, ?_, ?_, ?_⟩
  · simp only [alloc_task_ctx]
    rw [Nat.mod_eq_of_lt hsum, Nat.mod_eq_of_lt hfit]
  · intro ctx stats now
    by_cases h : ctx.last_run_at = 0
    · simp [cake_stopping, h]
    · simp only [cake_stopping, if_neg h]
      exact compute_deficit_le _ _
  · intro env t0 prev_cpu sync now st
    obtain ⟨tgt, h⟩ := cake_select_cpu_ctx cfg env t0 prev_cpu sync now st
    exact ⟨_, h, rfl⟩
  · intro t flags st
    exact ⟨_, cake_enqueue_ctx cfg t flags st, rfl⟩
  · intro ctx stats now
    obtain ⟨pk, avg, h⟩ := cake_running_shape cfg ctx stats now
    rw [h]
  · intro ctx stats now
    obtain ⟨r, h⟩ := cake_tick_ctx cfg ctx stats now
    rw [h]
  · intro ctx stats now h0 hrun h32
    have HS := cake_stopping_effect cfg ctx stats now
      ((now % 2^32 + 2^32 - ctx.last_run_at) % 2^32) h32 hrun rfl
    have hd : (cake_stopping cfg ctx stats now).1.deficit_us = 0 := by
      rw [HS.2.2.2.2.2.1, h0, hdef0]
    refine ⟨hd, ?_⟩
    rw [HS.2.2.2.2.2.2.1, h0, hdef0, hslice0, HS.2.1]

/-- Witness for C10 at the default configuration. -/
theorem C10_deficit_monotone_witness :
    (defaultConfig.quantum_ns + defaultConfig.new_flow_bonus_ns < 2^64 ∧
     (defaultConfig.quantum_ns + defaultConfig.new_flow_bonus_ns) >>> 10 < 2^16 ∧
     defaultConfig.quantum_ns < 2^52) ∧
    (alloc_task_ctx defaultConfig).deficit_us =
      (defaultConfig.quantum_ns + defaultConfig.new_flow_bonus_ns) >>> 10 :=
  ⟨⟨by decide, by decide, by decide⟩,
   (C10_deficit_monotone defaultConfig (by decide) (by decide) (by decide)).1⟩
